import Mathlib

/-!
Verification of the sms-chatbot scheduling and conversation core.

Shallow embedding of the Python sources of the `sms-chatbot` repository:

* `app/services/scheduling_service.py` — `SchedulingService` (book / cancel /
  reschedule / availability queries) over an explicit database state;
* `app/core/compliance.py` and `app/services/sms_service.py` — the compliance
  gate and inbound routing;
* `app/services/ai_service.py` — `detect_intent`, `_parse_intent_response`,
  `_heuristic_intent_result`, `parse_slot_selection`;
* `app/services/campaign_service.py` — `render_template`;
* `app/services/conversation_service.py` — the per-contact conversation state
  machine.

Conventions of the embedding: UUIDs become `Nat` ids, `datetime` values become
`Int` seconds, Python `dict` contexts become a structure whose fields default
exactly like the corresponding `dict.get` calls, raising code returns
`Except`, and a raised exception inside a transaction leaves the database
unchanged (mirroring the rollback of `session.begin()`; in the sources every
`raise` happens before the first mutation of the transaction).  External
collaborators (the LLM classifier, Twilio, `strftime` formatting) are inputs:
they appear as explicit oracle arguments, so every theorem quantifies over
all of their behaviours.
-/

namespace SMSChatbot

/-! ## Python string primitives -/

/-- Whitespace characters stripped by Python `str.strip()` (ASCII subset;
all keyword and message comparisons in the sources are ASCII). -/
def pyWhitespace : List Char := [' ', '\t', '\n', '\r', Char.ofNat 11, Char.ofNat 12]

/-- `str.strip()` on the character list. -/
def pyStripChars (l : List Char) : List Char :=
  ((l.dropWhile (pyWhitespace.contains ·)).reverse.dropWhile (pyWhitespace.contains ·)).reverse

/-- Python `s.strip()`. -/
def pyStrip (s : String) : String := ⟨pyStripChars s.data⟩

/-- Python `s.upper()` (ASCII). -/
def pyUpper (s : String) : String := ⟨s.data.map Char.toUpper⟩

/-- Python `s.lower()` (ASCII). -/
def pyLower (s : String) : String := ⟨s.data.map Char.toLower⟩

/-- Substring test on character lists. -/
def listInfix (needle : List Char) : List Char → Bool
  | [] => needle.isEmpty
  | c :: rest => needle.isPrefixOf (c :: rest) || listInfix needle rest

/-- Python `needle in haystack` substring test. -/
def pyContains (haystack needle : String) : Bool :=
  listInfix needle.data haystack.data

/-- Python `int(x or 1)`-style defaulting on a counter (`0`/`None` falsy). -/
def pyIntOr (v dflt : Nat) : Nat := if v == 0 then dflt else v

/-- Python regex word characters `[A-Za-z0-9_]`. -/
def isWordChar (c : Char) : Bool :=
  ('a' ≤ c && c ≤ 'z') || ('A' ≤ c && c ≤ 'Z') || ('0' ≤ c && c ≤ '9') || c = '_'

/-- Decimal digit test. -/
def isDigitChar (c : Char) : Bool := '0' ≤ c && c ≤ '9'

/-- Value of a digit run. -/
def digitsToNat (l : List Char) : Nat :=
  l.foldl (fun acc c => acc * 10 + (c.toNat - '0'.toNat)) 0

/-- `re.search(r"\b(\d+)\b", s)`: the first maximal digit run that is
preceded and followed by a non-word character (or the string edge).
`prev = none` encodes the start of the string.  A digit run that fails the
trailing word boundary is skipped whole (backtracking inside the run cannot
produce a boundary because digits are word characters). -/
def findNumericTokenAux : Option Char → List Char → Option Nat
  | _, [] => none
  | prev, c :: cs =>
    if isDigitChar c && (match prev with | none => true | some p => !isWordChar p) then
      let run := c :: cs.takeWhile isDigitChar
      let rest := cs.dropWhile isDigitChar
      match rest with
      | [] => some (digitsToNat run)
      | d :: _ =>
        if isWordChar d then
          findNumericTokenAux (some c) cs
        else
          some (digitsToNat run)
    else
      findNumericTokenAux (some c) cs

/-- First `\b(\d+)\b` match in a string, as a number. -/
def findNumericToken (s : String) : Option Nat := findNumericTokenAux none s.data

/-- Python `list[-10:]`. -/
def pyTakeLast (n : Nat) (l : List α) : List α := l.drop (l.length - n)

/-! ## Scheduling service (`app/services/scheduling_service.py`)

Database rows.  Columns that no claim or operation reads (`provider_id`,
`slot_type`, `created_at`, `updated_at`, `notes`) are omitted. -/

structure AvailabilitySlot where
  id : Nat
  start_time : Int
  end_time : Int
  buffer_minutes : Int := 0
  is_available : Bool := true
deriving Repr, DecidableEq

structure Appointment where
  id : Nat
  contact_id : Nat
  slot_id : Nat
  status : String := "confirmed"
  booked_at : Int := 0
  cancelled_at : Option Int := none
  cancellation_reason : Option String := none
  rescheduled_from_id : Option Nat := none
  version : Nat := 1
deriving Repr, DecidableEq

/-- The slot and appointment tables, plus the id generator for new
appointment rows. -/
structure DB where
  slots : List AvailabilitySlot := []
  appointments : List Appointment := []
  nextApptId : Nat := 0
deriving Repr, DecidableEq

/-- Errors raised by the scheduling service: `SlotUnavailableError`
(from `app/core/exceptions.py`) versus plain `ValueError`. -/
inductive SchedError where
  | slotUnavailable (msg : String)
  | valueError (msg : String)
deriving Repr, DecidableEq

/-- Row lookup by primary key (`select ... where id == ...`). -/
def findSlot (db : DB) (slot_id : Nat) : Option AvailabilitySlot :=
  db.slots.find? (fun s => s.id == slot_id)

/-- Appointment lookup by primary key. -/
def findAppt (db : DB) (appointment_id : Nat) : Option Appointment :=
  db.appointments.find? (fun a => a.id == appointment_id)

/-- `SchedulingService.book_appointment`.  Returns the raised error or the
new appointment, together with the database after the transaction (unchanged
when an error is raised, since the raise precedes every write and the
transaction rolls back). -/
def book_appointment (db : DB) (contact_id slot_id : Nat) (now : Int) :
    Except SchedError Appointment × DB :=
  match findSlot db slot_id with
  | none =>
    (Except.error (SchedError.slotUnavailable "The selected slot is no longer available."), db)
  | some slot =>
    if slot.is_available then
      let appointment : Appointment :=
        { id := db.nextApptId, contact_id := contact_id, slot_id := slot_id,
          status := "confirmed", booked_at := now }
      (Except.ok appointment,
        { db with
            slots := db.slots.map (fun s =>
              if s.id == slot_id then { s with is_available := false } else s),
            appointments := db.appointments ++ [appointment],
            nextApptId := db.nextApptId + 1 })
    else
      (Except.error (SchedError.slotUnavailable "The selected slot is no longer available."), db)

/-- `SchedulingService.cancel_appointment`. -/
def cancel_appointment (db : DB) (appointment_id : Nat) (reason : Option String) (now : Int) :
    Except SchedError Appointment × DB :=
  match findAppt db appointment_id with
  | none => (Except.error (SchedError.valueError "Appointment not found."), db)
  | some appointment =>
    match findSlot db appointment.slot_id with
    | none => (Except.error (SchedError.valueError "Linked slot not found."), db)
    | some _slot =>
      let updated : Appointment :=
        { appointment with
            status := "cancelled",
            cancelled_at := some now,
            cancellation_reason := reason,
            version := pyIntOr appointment.version 1 + 1 }
      (Except.ok updated,
        { db with
            appointments := db.appointments.map (fun a =>
              if a.id == appointment_id then updated else a),
            slots := db.slots.map (fun s =>
              if s.id == appointment.slot_id then { s with is_available := true } else s) })

/-- Outcome of `SchedulingService.reschedule_appointment`.  The in-process
guards are `defaultdict(asyncio.Lock)` entries keyed by UUID strings; after
the appointment-id lock, the method enters — inside the same task and in
sorted order — the locks of `str(old_appointment.slot_id)` and
`str(new_slot_id)`.  `asyncio.Lock` is not reentrant, so when those two
keys are equal the second `acquire()` waits forever on a lock already held
by its own task: the call never returns and never raises.  `deadlock`
records that divergence; `done` is a normal return or raise together with
the resulting database. -/
inductive RescheduleOutcome where
  | deadlock
  | done (result : Except SchedError Appointment) (db : DB)
deriving Repr

/-- `SchedulingService.reschedule_appointment`.  The appointment is fetched
first (`ValueError` when missing), then the two per-slot locks are entered:
equal slot ids make the sorted key list `[k, k]` and the second acquisition
of the same non-reentrant lock deadlocks before either slot is read (see
`RescheduleOutcome`; appointment and slot UUIDs come from disjoint `uuid4`
draws, so only the two slot keys can coincide).  The two slot mutations of
the success path are applied sequentially, exactly like the two Python
attribute assignments. -/
def reschedule_appointment (db : DB) (appointment_id new_slot_id : Nat) (now : Int) :
    RescheduleOutcome :=
  match findAppt db appointment_id with
  | none => .done (Except.error (SchedError.valueError "Appointment not found.")) db
  | some old_appointment =>
    if old_appointment.slot_id == new_slot_id then RescheduleOutcome.deadlock
    else
      match findSlot db old_appointment.slot_id with
      | none => .done (Except.error (SchedError.valueError "Existing slot not found.")) db
      | some _old_slot =>
        match findSlot db new_slot_id with
        | none =>
          .done (Except.error
            (SchedError.slotUnavailable "Requested reschedule slot is unavailable.")) db
        | some new_slot =>
          if new_slot.is_available then
            let updated_old : Appointment :=
              { old_appointment with
                  status := "rescheduled",
                  version := pyIntOr old_appointment.version 1 + 1 }
            let replacement : Appointment :=
              { id := db.nextApptId, contact_id := old_appointment.contact_id,
                slot_id := new_slot_id, status := "confirmed", booked_at := now,
                rescheduled_from_id := some old_appointment.id }
            let slots1 := db.slots.map (fun s =>
              if s.id == old_appointment.slot_id then { s with is_available := true } else s)
            let slots2 := slots1.map (fun s =>
              if s.id == new_slot_id then { s with is_available := false } else s)
            .done (Except.ok replacement)
              { db with
                  slots := slots2,
                  appointments := (db.appointments.map (fun a =>
                    if a.id == appointment_id then updated_old else a)) ++ [replacement],
                  nextApptId := db.nextApptId + 1 }
          else
            .done (Except.error
              (SchedError.slotUnavailable "Requested reschedule slot is unavailable.")) db

/-- Stable insertion into a list sorted by an `Int` key (models the SQL
`order_by start_time asc`). -/
def insertByKey (key : α → Int) (a : α) : List α → List α
  | [] => [a]
  | b :: bs => if key a < key b then a :: b :: bs else b :: insertByKey key a bs

/-- Stable sort by an `Int` key. -/
def sortByKey (key : α → Int) : List α → List α
  | [] => []
  | a :: rest => insertByKey key a (sortByKey key rest)

/-- `SchedulingService.get_available_slots` (the `provider_id = None` shape
used by the conversation service; `buffer_minutes` are minutes, times are
seconds). -/
def get_available_slots (db : DB) (date_from date_to : Int) (limit : Nat) :
    List AvailabilitySlot :=
  let candidates := sortByKey (fun s => s.start_time)
    (db.slots.filter (fun s =>
      s.is_available && date_from ≤ s.start_time && s.end_time ≤ date_to))
  let filtered := candidates.filter (fun s =>
    s.is_available && s.end_time + s.buffer_minutes * 60 ≤ date_to)
  filtered.take limit

/-- `SchedulingService.get_fresh_alternatives` (again the `provider_id =
None`, `date_from = None` shape used by the conversation service: the window
is `[now, now + 7 days]`). -/
def get_fresh_alternatives (db : DB) (exclude_slot_ids : List Nat) (now : Int) (limit : Nat) :
    List AvailabilitySlot :=
  let finish := now + 604800
  let rows := sortByKey (fun s => s.start_time)
    (db.slots.filter (fun s =>
      s.is_available && now ≤ s.start_time && s.end_time ≤ finish &&
        !(exclude_slot_ids.contains s.id)))
  (rows.filter (fun s => s.is_available)).take limit

/-- Number of successful bookings in a sequence of `book_appointment` calls
against one slot, threading the database exactly as the service does (a
failed call leaves the database unchanged). -/
def countBookSuccesses (db : DB) (slot_id : Nat) (now : Int) : List Nat → Nat
  | [] => 0
  | c :: cs =>
    match book_appointment db c slot_id now with
    | (Except.ok _, db') => 1 + countBookSuccesses db' slot_id now cs
    | (Except.error _, _) => countBookSuccesses db slot_id now cs

/-! ## Compliance gate (`app/core/compliance.py`) and inbound routing
(`app/services/sms_service.py`) -/

/-- `app/models/contact.py` (columns the core reads). -/
structure Contact where
  id : Nat := 0
  phone_number : String := ""
  first_name : Option String := none
  last_name : Option String := none
  timezone : String := "America/New_York"
  opt_in_status : String := "opted_in"
  opt_in_date : Option Int := none
  opt_out_date : Option Int := none
deriving Repr, DecidableEq

def OPT_OUT_KEYWORDS : List String := ["STOP", "STOPALL", "UNSUBSCRIBE", "END", "QUIT"]

def OPT_IN_KEYWORDS : List String := ["START", "YES", "UNSTOP"]

def HELP_KEYWORDS : List String := ["HELP", "INFO"]

/-- `is_compliance_keyword`. -/
def is_compliance_keyword (text : String) : Bool × Option String :=
  let normalized := pyUpper (pyStrip text)
  if OPT_OUT_KEYWORDS.contains normalized then (true, some "opt_out")
  else if OPT_IN_KEYWORDS.contains normalized then (true, some "opt_in")
  else if HELP_KEYWORDS.contains normalized then (true, some "help")
  else (false, none)

/-- `handle_compliance`: returns the mutated contact and the canned reply;
the trailing `raise ValueError` branch becomes an error value. -/
def handle_compliance (contact : Contact) (keyword_type : String)
    (business_name support_number : String) (now : Int) :
    Except SchedError (Contact × String) :=
  if keyword_type = "opt_out" then
    Except.ok ({ contact with opt_in_status := "opted_out", opt_out_date := some now },
      "You have been unsubscribed and will not receive further messages. Reply START to re-subscribe.")
  else if keyword_type = "opt_in" then
    Except.ok ({ contact with opt_in_status := "opted_in", opt_in_date := some now },
      "You have been re-subscribed to " ++ business_name ++ " messages. Reply STOP to unsubscribe.")
  else if keyword_type = "help" then
    Except.ok (contact,
      business_name ++ ": For support call " ++ support_number ++
        ". Msg frequency varies. Msg&data rates may apply. Reply STOP to cancel.")
  else
    Except.error (SchedError.valueError ("Unknown compliance keyword type: " ++ keyword_type))

/-! ## AI service (`app/services/ai_service.py`) -/

def INTENTS : List String :=
  ["BOOK", "RESCHEDULE", "CANCEL", "QUESTION", "CONFIRM", "DENY", "SELECT_SLOT", "UNCLEAR"]

def FALLBACK_TEXT : String := "Sorry, having a brief issue. Please try again in a moment."

/-- `IntentResult` (the `extracted_data` dict is never read by the
conversation service and is omitted). -/
structure IntentResult where
  intent : String
  confidence : ℚ
  response_text : String := FALLBACK_TEXT
  needs_info : List String := []
deriving Repr, DecidableEq

/-- `AIService._truncate`. -/
def truncate (text : String) : String :=
  if text.length ≤ 480 then text else ⟨text.data.take 477⟩ ++ "..."

/-- One entry of the `presented_slots` context list built by
`ConversationService._serialize_presented_slots` (the `start_time`
isoformat string is kept as the underlying seconds value; the dict stores
the same slot id under both `slot_id` and `id`). -/
structure PresentedSlot where
  index : Nat := 0
  slot_id : Nat := 0
  start_time : Int := 0
  display : String := ""
  id : Nat := 0
deriving Repr, DecidableEq

/-- The successfully parsed JSON payload of a classifier tool call.  Fields
are `Option`s to model absent dict keys; a payload whose `confidence` is not
float-convertible makes the Python call raise inside the `try` block, which
is the same observable path as a classifier exception. -/
structure RawPayload where
  intent : Option String := none
  confidence : Option ℚ := none
  response_text : Option String := none
  needs_info : Option (List String) := none
deriving Repr, DecidableEq

/-- The `intent_aliases` dict lookup `intent_aliases.get(raw, raw)`. -/
def intentAliases (raw : String) : String :=
  if raw = "CONFIRM_YES" then "CONFIRM"
  else if raw = "CONFIRMATION" then "CONFIRM"
  else if raw = "YES" then "CONFIRM"
  else if raw = "AFFIRM" then "CONFIRM"
  else if raw = "DENY_NO" then "DENY"
  else if raw = "NO" then "DENY"
  else if raw = "REJECTION" then "DENY"
  else if raw = "BOOKING" then "BOOK"
  else if raw = "SCHEDULE" then "BOOK"
  else if raw = "SELECT" then "SELECT_SLOT"
  else if raw = "SLOT_SELECTION" then "SELECT_SLOT"
  else if raw = "ASK" then "QUESTION"
  else if raw = "FAQ" then "QUESTION"
  else if raw = "INFO" then "QUESTION"
  else if raw = "UNKNOWN" then "UNCLEAR"
  else if raw = "NONE" then "UNCLEAR"
  else raw

/-- `AIService._parse_intent_response`; `none` is the "no usable payload"
path (no tool call and no parseable content). -/
def parse_intent_response (payload : Option RawPayload) : IntentResult :=
  match payload with
  | none => { intent := "UNCLEAR", confidence := 0, response_text := FALLBACK_TEXT, needs_info := [] }
  | some p =>
    let raw_intent := pyUpper (pyStrip (p.intent.getD "UNCLEAR"))
    let aliased := intentAliases raw_intent
    let intent := if INTENTS.contains aliased then aliased else "UNCLEAR"
    let c0 := p.confidence.getD 0
    let c1 := if c0 > 1 then min (c0 / 100) 1 else c0
    let confidence := max 0 (min 1 c1)
    { intent := intent, confidence := confidence,
      response_text := truncate (p.response_text.getD FALLBACK_TEXT),
      needs_info := p.needs_info.getD [] }

def affirmativeWords : List String :=
  ["yes", "y", "yep", "yeah", "sure", "ok", "okay", "confirm", "sounds good",
   "do it", "book it", "perfect", "👍"]

def negativeWords : List String := ["no", "nope", "nah", "different", "change"]

/-- `AIService._contains_any`. -/
def contains_any (text : String) (terms : List String) : Bool :=
  terms.any (fun term => pyContains text term)

/-- `AIService._heuristic_intent_result`: the deterministic keyword /
digit-detection fallback classifier. -/
def heuristic_intent_result (message : String) (conversation_state : String)
    (available_slots : List PresentedSlot) : IntentResult :=
  let text := pyLower (pyStrip message)
  let confirming := conversation_state = "confirming_booking" ∨
    conversation_state = "confirming_cancel" ∨ conversation_state = "confirming_reschedule"
  if confirming ∧ contains_any text affirmativeWords then
    { intent := "CONFIRM", confidence := 4/5, response_text := "Confirmed.", needs_info := [] }
  else if confirming ∧ contains_any text negativeWords then
    { intent := "DENY", confidence := 4/5, response_text := "No problem.", needs_info := [] }
  else if !available_slots.isEmpty && (findNumericToken text).isSome then
    { intent := "SELECT_SLOT", confidence := 3/4, response_text := "Selecting a slot.", needs_info := [] }
  else if contains_any text ["reschedule", "move", "change time"] then
    { intent := "RESCHEDULE", confidence := 3/4, response_text := "Let\x27s reschedule.", needs_info := [] }
  else if pyContains text "cancel" then
    { intent := "CANCEL", confidence := 3/4, response_text := "Let\x27s cancel.", needs_info := [] }
  else if contains_any text ["book", "appointment", "schedule"] then
    { intent := "BOOK", confidence := 3/4, response_text := "Let\x27s get you booked.", needs_info := [] }
  else if contains_any text ["poem", "story", "joke"] then
    { intent := "QUESTION", confidence := 7/10,
      response_text := "I help with scheduling. Want to book an appointment?", needs_info := [] }
  else if contains_any text ["how much", "price", "cost", "charge"] then
    { intent := "QUESTION", confidence := 7/10,
      response_text := "Please contact us for that info.", needs_info := [] }
  else if pyContains text "?" then
    { intent := "QUESTION", confidence := 13/20,
      response_text := "Please contact us for that info.", needs_info := [] }
  else
    { intent := "UNCLEAR", confidence := 0, response_text := FALLBACK_TEXT, needs_info := [] }

/-- `AIService.detect_intent`.  `classifier_response = none` is the
exception/timeout path of the `try` block (including a malformed-confidence
payload); `some payload` is a completed call whose parsed payload is
`payload`. -/
def detect_intent (classifier_response : Option (Option RawPayload)) (message : String)
    (conversation_state : String) (available_slots : List PresentedSlot) : IntentResult :=
  match classifier_response with
  | none => heuristic_intent_result message conversation_state available_slots
  | some payload =>
    let result := parse_intent_response payload
    if result.confidence < 3/5 then
      { result with
          intent := "UNCLEAR",
          response_text :=
            truncate "Could you clarify if you want to book, reschedule, cancel, or ask a question?" }
    else result

/-- External behaviours consumed by `parse_slot_selection` and the
reply-formatting helpers: the `strftime`-token matching of
`_coerce_datetime`-derived time/day tokens (a function of the normalized
message and the slot start time), the LLM fallback's returned `slot_id`
(`none` for a null answer, a missing tool call, or a raised exception — all
of which the source maps to `None`), and the timezone-local `strftime`
renderings used for display strings. -/
structure AIOracles where
  timeTokenMatch : String → Int → Bool
  dayTokenMatch : String → Int → Bool
  llmSlotReply : String → List PresentedSlot → Option Nat
  fmtSlotShort : String → Int → String
  fmtSlotAt : String → Int → String

def ordinalMap : List (String × Nat) :=
  [("first", 1), ("second", 2), ("third", 3), ("fourth", 4), ("fifth", 5)]

/-- `AIService.parse_slot_selection`. -/
def parse_slot_selection (o : AIOracles) (message : String)
    (presented_slots : List PresentedSlot) : Option Nat :=
  if presented_slots.isEmpty then none
  else
    let normalized := pyLower (pyStrip message)
    if normalized = "" then none
    else
      let numeric : Option Nat :=
        match findNumericToken normalized with
        | some choice =>
          if 1 ≤ choice ∧ choice ≤ presented_slots.length then
            (presented_slots.get? (choice - 1)).map (·.id)
          else none
        | none => none
      match numeric with
      | some r => some r
      | none =>
        let ordinal : Option Nat := ordinalMap.findSome? (fun wn =>
          if pyContains normalized wn.1 && wn.2 ≤ presented_slots.length then
            (presented_slots.get? (wn.2 - 1)).map (·.id)
          else none)
        match ordinal with
        | some r => some r
        | none =>
          let time_matches := presented_slots.filterMap (fun slot =>
            if o.timeTokenMatch normalized slot.start_time then some slot.id else none)
          let day_matches := presented_slots.filterMap (fun slot =>
            if o.dayTokenMatch normalized slot.start_time then some slot.id else none)
          if time_matches.length == 1 then time_matches.head?
          else if day_matches.length == 1 then day_matches.head?
          else
            match o.llmSlotReply message presented_slots with
            | none => none
            | some selected =>
              if presented_slots.any (fun slot => slot.id == selected) then some selected
              else none

/-! ## Campaign template rendering (`app/services/campaign_service.py`) -/

/-- Python `str.replace(pat, rep)`: leftmost, non-overlapping, no rescan of
the inserted replacement.  An empty pattern cannot occur here (all patterns
are `"{key}"`), and is treated as the identity to keep the function total. -/
def pyReplaceChars (pat rep : List Char) : List Char → List Char
  | [] => []
  | c :: rest =>
    if pat.isEmpty then c :: rest
    else if pat.isPrefixOf (c :: rest) then
      rep ++ pyReplaceChars pat rep (rest.drop (pat.length - 1))
    else
      c :: pyReplaceChars pat rep rest
termination_by l => l.length
decreasing_by
  · simp only [List.length_drop, List.length_cons]
    omega
  · simp

def pyReplace (s pat rep : String) : String := ⟨pyReplaceChars pat.data rep.data s.data⟩

theorem dropWhile_length_le (p : α → Bool) (l : List α) :
    (l.dropWhile p).length ≤ l.length := by
  induction l with
  | nil => simp [List.dropWhile]
  | cons a t ih =>
    by_cases h : p a
    · simp only [List.dropWhile, h, List.length_cons]
      omega
    · simp [List.dropWhile, h]

/-- Start character of the default `string.Template` identifier pattern. -/
def isIdentStart (c : Char) : Bool :=
  ('a' ≤ c && c ≤ 'z') || ('A' ≤ c && c ≤ 'Z') || c = '_'

def isIdentChar (c : Char) : Bool := isIdentStart c || isDigitChar c

/-- `string.Template.safe_substitute` with the default delimiter `$` and
identifier pattern: `$$` escapes to `$`; `$name` and `${name}` substitute
when `name` maps to a value and are left verbatim otherwise; an invalid
occurrence of `$` is left as-is and scanning resumes right after it.
Substituted values are inserted without rescanning. -/
def safeSubChars (m : String → Option String) : List Char → List Char
  | [] => []
  | c :: rest =>
    if c = '$' then
      match rest with
      | [] => ['$']
      | d :: rest2 =>
        if d = '$' then '$' :: safeSubChars m rest2
        else if d = '{' then
          (if (match rest2.takeWhile isIdentChar with | [] => false | e :: _ => isIdentStart e) then
            match hsplit : rest2.dropWhile isIdentChar with
            | '}' :: rest4 =>
              (match m ⟨rest2.takeWhile isIdentChar⟩ with
               | some v => v.data ++ safeSubChars m rest4
               | none => '$' :: '{' :: (rest2.takeWhile isIdentChar ++ '}' :: safeSubChars m rest4))
            | _ => '$' :: safeSubChars m ('{' :: rest2)
          else '$' :: safeSubChars m ('{' :: rest2))
        else if isIdentStart d then
          (match m ⟨(d :: rest2).takeWhile isIdentChar⟩ with
           | some v => v.data ++ safeSubChars m ((d :: rest2).dropWhile isIdentChar)
           | none => '$' :: ((d :: rest2).takeWhile isIdentChar ++
               safeSubChars m ((d :: rest2).dropWhile isIdentChar)))
        else '$' :: safeSubChars m (d :: rest2)
    else c :: safeSubChars m rest
termination_by l => l.length
decreasing_by
  all_goals simp only [List.length_cons]
  all_goals try omega
  all_goals first
    | (have hle := dropWhile_length_le isIdentChar rest
       rw [hsplit] at hle
       simp only [List.length_cons] at hle
       omega)
    | (have hle := dropWhile_length_le isIdentChar (c :: rest)
       simp only [List.length_cons] at hle
       omega)

/-- Python `value or default` on an optional string (`None` and `""` are
falsy). -/
def pyOrStr (v : Option String) (dflt : String) : String :=
  match v with
  | none => dflt
  | some s => if s = "" then dflt else s

/-- The literal `"{k}"`. -/
def braced (k : String) : String := String.singleton '{' ++ k ++ String.singleton '}'

/-- The literal `"${k}"`. -/
def dollarBraced (k : String) : String := String.singleton '$' ++ braced k

/-- The `variables` dict of `CampaignService.render_template`, in insertion
order. -/
def templateVars (first_name last_name : Option String)
    (business_name phone_number : String) : List (String × String) :=
  [("first_name", pyOrStr first_name "there"),
   ("last_name", pyOrStr last_name ""),
   ("business_name", business_name),
   ("phone_number", phone_number)]

/-- `CampaignService.render_template`: rewrite each `"{key}"` to `"${key}"`
(one `str.replace` per key, in dict order), then `safe_substitute`. -/
def render_template (message_template : String) (first_name last_name : Option String)
    (business_name phone_number : String) : String :=
  let vs := templateVars first_name last_name business_name phone_number
  let template_text := vs.foldl
    (fun t kv => pyReplace t (braced kv.1) (dollarBraced kv.1)) message_template
  ⟨safeSubChars (fun k => (vs.find? (fun kv => kv.1 == k)).map (·.2)) template_text.data⟩

/-! ## Conversation service (`app/services/conversation_service.py`) -/

/-- The conversation `context` JSONB dict.  Field defaults mirror the
`context.get(key, default)` calls of the handlers (`presented_slots → []`,
`retry_count → 0`, id fields → `None`, `history → []`), so a freshly built
dict such as `{"retry_count": 0}` is a structure with every other field at
its default.  History entries are `(role, content)` pairs. -/
structure Ctx where
  presented_slots : List PresentedSlot := []
  retry_count : Nat := 0
  selected_slot_id : Option Nat := none
  pending_appointment_id : Option Nat := none
  original_appointment_id : Option Nat := none
  last_intent : Option String := none
  history : List (String × String) := []
deriving Repr, DecidableEq

/-- `app/models/conversation.py` `ConversationState` row. -/
structure ConvState where
  current_state : String := "idle"
  context : Ctx := {}
  last_message_at : Option Int := none
  expires_at : Option Int := none
deriving Repr, DecidableEq

/-- External behaviours consumed by the conversation service: `detect` is
`AIService.detect_intent` applied to the live classifier (arguments:
message, history, `context["presented_slots"]`; the remaining arguments of
the call are fixed — in particular `conversation_state` is always
`context.get("last_state", "idle") = "idle"` because no handler ever writes
a `last_state` key); `ai` carries the `parse_slot_selection` and `strftime`
behaviours; `now` is the wall clock. -/
structure ConvOracles where
  detect : String → List (String × String) → List PresentedSlot → IntentResult
  ai : AIOracles
  now : Int

/-- What a state handler returns: `(next_state, response_text,
next_context)` plus the database after any booking-engine calls. -/
structure StepResult where
  next_state : String
  reply : String
  ctx : Ctx
  db : DB
deriving Repr, DecidableEq

/-- `MAX_RETRIES` from `conversation_service.py`. -/
def MAX_RETRIES : Nat := 3

/-- `ConversationService._serialize_presented_slots` (every `start_time`
converts, so the `except` fallback to UTC is folded into the `fmtSlotShort`
oracle). -/
def serialize_presented_slots (o : ConvOracles) (timezone_name : String)
    (slots : List AvailabilitySlot) : List PresentedSlot :=
  slots.enum.map (fun p =>
    { index := p.1 + 1, slot_id := p.2.id, start_time := p.2.start_time,
      display := o.ai.fmtSlotShort timezone_name p.2.start_time, id := p.2.id })

/-- `AIService.generate_slot_presentation` (an `Int` start time always
coerces, so no line is skipped). -/
def generate_slot_presentation (o : ConvOracles) (timezone_name : String)
    (slots : List PresentedSlot) : String :=
  if slots.isEmpty then
    "I don\x27t have open slots right now. Would you like me to check again later?"
  else
    truncate (String.intercalate "\n"
      (["Here are some available times:"] ++
        slots.enum.map (fun p =>
          toString (p.1 + 1) ++ ") " ++ o.ai.fmtSlotShort timezone_name p.2.start_time) ++
        ["Reply with a number to book."]))

/-- `AIService.generate_confirmation` on the `{"start_time": ...}` dicts the
conversation service builds. -/
def generate_confirmation (o : ConvOracles) (timezone_name : String)
    (start : Option Int) : String :=
  match start with
  | none => "You\x27re all set! Your appointment is confirmed."
  | some t =>
    truncate ("You\x27re all set! Your appointment is confirmed for " ++
      o.ai.fmtSlotAt timezone_name t ++ ". Reply CANCEL to cancel or RESCHEDULE to change.")

/-- `ConversationService._find_presented_slot_display`. -/
def find_presented_slot_display (presented_slots : List PresentedSlot)
    (selected_slot_id : Nat) : String :=
  match presented_slots.find? (fun slot => slot.slot_id == selected_slot_id) with
  | some slot => slot.display
  | none => "that selected time"

/-- `ConversationService._get_contact_appointments` (status filter plus
`order_by booked_at desc`). -/
def get_contact_appointments (db : DB) (contact_id : Nat) (statuses : List String) :
    List Appointment :=
  sortByKey (fun a => -a.booked_at)
    (db.appointments.filter (fun a => a.contact_id == contact_id && statuses.contains a.status))

/-- `ConversationService._handle_idle` (including `_begin_booking`). -/
def handle_idle (db : DB) (o : ConvOracles) (contact : Contact) (message : String)
    (context : Ctx) (history : List (String × String)) :
    Except SchedError StepResult × Nat :=
  let intent := o.detect message history context.presented_slots
  if intent.intent = "BOOK" then
    let slots := get_available_slots db o.now (o.now + 604800) 5
    if slots.isEmpty then
      (Except.ok ⟨"idle", "I don\x27t see open times right now. Want me to check again later?",
        { retry_count := 0 }, db⟩, 1)
    else
      let presented := serialize_presented_slots o contact.timezone slots
      (Except.ok ⟨"showing_slots", generate_slot_presentation o contact.timezone presented,
        { presented_slots := presented, retry_count := 0, last_intent := some intent.intent },
        db⟩, 1)
  else if intent.intent = "CANCEL" then
    match get_contact_appointments db contact.id ["confirmed"] with
    | [] =>
      (Except.ok ⟨"idle", "I couldn\x27t find an active appointment to cancel.",
        { retry_count := 0 }, db⟩, 1)
    | appt :: _ =>
      let when_text :=
        match findSlot db appt.slot_id with
        | some slot => generate_confirmation o contact.timezone (some slot.start_time)
        | none => "your appointment"
      (Except.ok ⟨"confirming_cancel",
        "I found " ++ when_text ++ ". Reply YES to confirm cancellation or NO to keep it.",
        { pending_appointment_id := some appt.id, retry_count := 0,
          last_intent := some "CANCEL" }, db⟩, 1)
  else if intent.intent = "RESCHEDULE" then
    match get_contact_appointments db contact.id ["confirmed"] with
    | [] =>
      (Except.ok ⟨"idle", "I couldn\x27t find an active appointment to reschedule.",
        { retry_count := 0 }, db⟩, 1)
    | original :: _ =>
      let alternatives := get_fresh_alternatives db [original.slot_id] o.now 5
      if alternatives.isEmpty then
        (Except.ok ⟨"idle", "I don\x27t see alternative slots right now. Please try again soon.",
          { retry_count := 0 }, db⟩, 1)
      else
        let presented := serialize_presented_slots o contact.timezone alternatives
        (Except.ok ⟨"reschedule_show_slots",
          generate_slot_presentation o contact.timezone presented,
          { original_appointment_id := some original.id, presented_slots := presented,
            retry_count := 0, last_intent := some "RESCHEDULE" }, db⟩, 1)
  else if intent.intent = "QUESTION" ∨ intent.intent = "UNCLEAR" then
    if !intent.needs_info.isEmpty then
      (Except.ok ⟨"awaiting_info", intent.response_text,
        { retry_count := context.retry_count, last_intent := some intent.intent }, db⟩, 1)
    else
      (Except.ok ⟨"idle", intent.response_text,
        { retry_count := 0, last_intent := some intent.intent }, db⟩, 1)
  else if intent.intent = "CONFIRM" ∨ intent.intent = "DENY" ∨ intent.intent = "SELECT_SLOT" then
    (Except.ok ⟨"idle", "I can help you book, reschedule, or cancel. What would you like to do?",
      { retry_count := 0, last_intent := some intent.intent }, db⟩, 1)
  else
    (Except.ok ⟨"idle", intent.response_text,
      { retry_count := 0, last_intent := some intent.intent }, db⟩, 1)

/-- `ConversationService._handle_showing_slots`. -/
def handle_showing_slots (db : DB) (o : ConvOracles) (contact : Contact) (message : String)
    (context : Ctx) (history : List (String × String)) :
    Except SchedError StepResult × Nat :=
  let intent := o.detect message history context.presented_slots
  if intent.intent = "CANCEL" ∨ intent.intent = "RESCHEDULE" then
    let r := handle_idle db o contact message context history
    (r.1, r.2 + 1)
  else
    match parse_slot_selection o.ai message context.presented_slots with
    | none =>
      let retry_count := context.retry_count + 1
      if retry_count ≥ MAX_RETRIES then
        (Except.ok ⟨"idle",
          "Let\x27s reset. Reply BOOK whenever you\x27re ready and I will share fresh times.",
          { retry_count := 0 }, db⟩, 1)
      else
        (Except.ok ⟨"showing_slots",
          "I didn\x27t catch that slot. Reply with the number from the list.",
          { context with retry_count := retry_count, last_intent := some intent.intent },
          db⟩, 1)
    | some selected_slot_id =>
      (Except.ok ⟨"confirming_booking",
        "Great, should I book " ++
          find_presented_slot_display context.presented_slots selected_slot_id ++
          "? Reply YES to confirm or NO to pick another time.",
        { context with
            selected_slot_id := some selected_slot_id
            retry_count := 0
            last_intent := some "SELECT_SLOT" }, db⟩, 1)

/-- `ConversationService._handle_confirming_booking`. -/
def handle_confirming_booking (db : DB) (o : ConvOracles) (contact : Contact)
    (message : String) (context : Ctx) (history : List (String × String)) :
    Except SchedError StepResult × Nat :=
  let intent := o.detect message history context.presented_slots
  if intent.intent = "CANCEL" then
    let r := handle_idle db o contact message context history
    (r.1, r.2 + 1)
  else if intent.intent = "DENY" then
    (Except.ok ⟨"showing_slots", "No problem. Reply with another slot number when ready.",
      { context with selected_slot_id := none, last_intent := some "DENY" }, db⟩, 1)
  else if intent.intent ≠ "CONFIRM" then
    (Except.ok ⟨"confirming_booking",
      "Please reply YES to confirm this slot or NO to choose another.", context, db⟩, 1)
  else
    match context.selected_slot_id with
    | none =>
      (Except.ok ⟨"showing_slots", "Let\x27s pick a slot first. Reply with a slot number.",
        context, db⟩, 1)
    | some selected_slot =>
      match book_appointment db contact.id selected_slot o.now with
      | (Except.ok appointment, db2) =>
        let confirmation := generate_confirmation o contact.timezone
          ((findSlot db2 appointment.slot_id).map (·.start_time))
        (Except.ok ⟨"idle", confirmation,
          { retry_count := 0, last_intent := some "BOOK" }, db2⟩, 1)
      | (Except.error (SchedError.slotUnavailable _), db2) =>
        let alternatives := get_fresh_alternatives db2 [selected_slot] o.now 5
        if alternatives.isEmpty then
          (Except.ok ⟨"idle", "Sorry, that slot was taken and I have no fresh alternatives yet.",
            { retry_count := 0 }, db2⟩, 1)
        else
          let presented := serialize_presented_slots o contact.timezone alternatives
          (Except.ok ⟨"showing_slots",
            "Sorry, that slot was just booked by someone else.\n" ++
              generate_slot_presentation o contact.timezone presented,
            { presented_slots := presented, retry_count := 0, last_intent := some "BOOK" },
            db2⟩, 1)
      | (Except.error e, _) => (Except.error e, 1)

/-- `ConversationService._handle_confirming_cancel`.  The
`cancel_appointment` call is not wrapped in any `try`, so its `ValueError`s
surface as `Except.error`. -/
def handle_confirming_cancel (db : DB) (o : ConvOracles) (contact : Contact)
    (message : String) (context : Ctx) (history : List (String × String)) :
    Except SchedError StepResult × Nat :=
  let intent := o.detect message history context.presented_slots
  if intent.intent ≠ "CONFIRM" then
    (Except.ok ⟨"idle", "OK, your appointment is still on the books.",
      { retry_count := 0, last_intent := some "DENY" }, db⟩, 1)
  else
    match context.pending_appointment_id with
    | none =>
      (Except.ok ⟨"idle", "I couldn\x27t find the appointment to cancel.",
        { retry_count := 0 }, db⟩, 1)
    | some appointment_id =>
      match cancel_appointment db appointment_id none o.now with
      | (Except.ok _, db2) =>
        (Except.ok ⟨"idle", "Done - your appointment is cancelled.",
          { retry_count := 0, last_intent := some "CANCEL" }, db2⟩, 1)
      | (Except.error e, _) => (Except.error e, 1)

/-- `ConversationService._handle_reschedule_show_slots`. -/
def handle_reschedule_show_slots (db : DB) (o : ConvOracles) (contact : Contact)
    (message : String) (context : Ctx) (history : List (String × String)) :
    Except SchedError StepResult × Nat :=
  let intent := o.detect message history context.presented_slots
  if intent.intent = "CANCEL" then
    let r := handle_idle db o contact message context history
    (r.1, r.2 + 1)
  else
    match parse_slot_selection o.ai message context.presented_slots with
    | none =>
      let retry_count := context.retry_count + 1
      if retry_count ≥ MAX_RETRIES then
        (Except.ok ⟨"idle",
          "Let\x27s reset for now. Reply RESCHEDULE when you want to try again.",
          { retry_count := 0 }, db⟩, 1)
      else
        (Except.ok ⟨"reschedule_show_slots",
          "I didn\x27t catch that slot. Reply with one of the slot numbers.",
          { context with retry_count := retry_count }, db⟩, 1)
    | some selected_slot_id =>
      (Except.ok ⟨"confirming_reschedule",
        "Perfect - should I move your appointment to " ++
          find_presented_slot_display context.presented_slots selected_slot_id ++
          "? Reply YES or NO.",
        { context with
            selected_slot_id := some selected_slot_id
            retry_count := 0
            last_intent := some "RESCHEDULE" }, db⟩, 1)

/-- Return behaviour of one state handler, together with the number of
`_detect_intent` (classifier) calls it performed: `returns` is a normal
return or a raised exception; `hangs` records a handler coroutine that
never returns because it awaited a deadlocked booking-engine call. -/
inductive HandlerStep where
  | returns (result : Except SchedError StepResult) (classifierCalls : Nat)
  | hangs (classifierCalls : Nat)
deriving Repr

/-- A handler that always returns, as a `HandlerStep`. -/
def liftStep : Except SchedError StepResult × Nat → HandlerStep
  | (r, n) => HandlerStep.returns r n

/-- `ConversationService._handle_confirming_reschedule`.  Only
`SlotUnavailableError` is caught around the booking-engine call; a
`ValueError` propagates, and a deadlocked `reschedule_appointment` is
awaited forever, so the handler itself never returns. -/
def handle_confirming_reschedule (db : DB) (o : ConvOracles) (contact : Contact)
    (message : String) (context : Ctx) (history : List (String × String)) :
    HandlerStep :=
  let intent := o.detect message history context.presented_slots
  if intent.intent = "DENY" then
    HandlerStep.returns (Except.ok ⟨"idle",
      "No changes made. Your current appointment remains booked.",
      { retry_count := 0 }, db⟩) 1
  else if intent.intent ≠ "CONFIRM" then
    HandlerStep.returns (Except.ok ⟨"confirming_reschedule",
      "Please reply YES to confirm the reschedule or NO to keep it.", context, db⟩) 1
  else
    match context.original_appointment_id, context.selected_slot_id with
    | some original_id, some selected_slot_id =>
      (match reschedule_appointment db original_id selected_slot_id o.now with
       | RescheduleOutcome.deadlock => HandlerStep.hangs 1
       | RescheduleOutcome.done (Except.ok replacement) db2 =>
         let confirmation := generate_confirmation o contact.timezone
           ((findSlot db2 replacement.slot_id).map (·.start_time))
         HandlerStep.returns (Except.ok ⟨"idle", confirmation,
           { retry_count := 0, last_intent := some "RESCHEDULE" }, db2⟩) 1
       | RescheduleOutcome.done (Except.error (SchedError.slotUnavailable _)) db2 =>
         let alternatives := get_fresh_alternatives db2 [selected_slot_id] o.now 5
         if alternatives.isEmpty then
           HandlerStep.returns (Except.ok ⟨"idle",
             "That new slot was taken and I have no alternatives right now.",
             { retry_count := 0 }, db2⟩) 1
         else
           let presented := serialize_presented_slots o contact.timezone alternatives
           HandlerStep.returns (Except.ok ⟨"reschedule_show_slots",
             "That slot was just taken. Here are fresh options:\n" ++
               generate_slot_presentation o contact.timezone presented,
             { context with
                 presented_slots := presented
                 selected_slot_id := none
                 retry_count := 0 }, db2⟩) 1
       | RescheduleOutcome.done (Except.error e) _ => HandlerStep.returns (Except.error e) 1)
    | _, _ =>
      HandlerStep.returns (Except.ok ⟨"idle",
        "I couldn\x27t finish the reschedule flow. Let\x27s try again.",
        { retry_count := 0 }, db⟩) 1

/-- `ConversationService._dispatch_state_handler` (`awaiting_info` and any
unknown state fall back to the idle handler). -/
def dispatch_state_handler (db : DB) (o : ConvOracles) (current_state : String)
    (contact : Contact) (message : String) (context : Ctx)
    (history : List (String × String)) : HandlerStep :=
  if current_state = "showing_slots" then
    liftStep (handle_showing_slots db o contact message context history)
  else if current_state = "confirming_booking" then
    liftStep (handle_confirming_booking db o contact message context history)
  else if current_state = "confirming_cancel" then
    liftStep (handle_confirming_cancel db o contact message context history)
  else if current_state = "reschedule_show_slots" then
    liftStep (handle_reschedule_show_slots db o contact message context history)
  else if current_state = "confirming_reschedule" then
    handle_confirming_reschedule db o contact message context history
  else
    liftStep (handle_idle db o contact message context history)

/-- `ConversationService._append_history`. -/
def append_history (history : List (String × String))
    (user_message assistant_message : String) : List (String × String) :=
  pyTakeLast 10 (history ++ [("user", user_message), ("assistant", assistant_message)])

/-- Result of `_process_message_locked`: `skipped` is the silent early
return (unknown or opted-out contact: no state write, no outbound send);
`failed` is an exception escaping the handler (nothing committed, nothing
sent); `hangs` records the coroutine never returning because the awaited
handler deadlocked (again nothing committed, nothing sent); `committed`
carries the persisted `ConversationState`, the database after any
booking-engine work and the reply handed to the outbound channel (sent only
when non-empty). -/
inductive ProcOutcome where
  | skipped
  | failed (e : SchedError)
  | hangs
  | committed (state : ConvState) (db : DB) (reply : String)
deriving Repr, DecidableEq

/-- `ConversationService._process_message_locked`, paired with the number of
`detect_intent` (classifier) invocations performed before it returned (or
hung). -/
def process_message (db : DB) (o : ConvOracles) (contact : Option Contact)
    (stateRow : Option ConvState) (body : String) : ProcOutcome × Nat :=
  let normalized_body := pyStrip body
  match contact with
  | none => (ProcOutcome.skipped, 0)
  | some contact =>
    if contact.opt_in_status = "opted_out" then (ProcOutcome.skipped, 0)
    else
      let state := stateRow.getD {}
      let context := state.context
      let history := context.history
      let current := if state.current_state = "" then "idle" else state.current_state
      match dispatch_state_handler db o current contact normalized_body context history with
      | HandlerStep.hangs n => (ProcOutcome.hangs, n)
      | HandlerStep.returns (Except.error e) n => (ProcOutcome.failed e, n)
      | HandlerStep.returns (Except.ok r) n =>
        let updated_history := append_history history normalized_body r.reply
        let next_context := { r.ctx with history := updated_history }
        (ProcOutcome.committed
          { current_state := r.next_state, context := next_context,
            last_message_at := some o.now,
            expires_at := if r.next_state ≠ "idle" then some (o.now + 7200) else none }
          r.db r.reply, n)

/-- Outcome of `SMSService.handle_inbound`: either the compliance gate
answered (carrying the mutated contact, the canned reply and the
`force_send` flag of the `send_message` call), or the message was routed to
`ConversationService.process_inbound_message`, whose outcome is embedded.
Only the `conversation` branch ever reaches the state machine or the
classifier. -/
inductive InboundResult where
  | complianceHandled (contact : Contact) (reply : String) (forceSend : Bool)
  | conversation (outcome : ProcOutcome) (classifierCalls : Nat)
deriving Repr, DecidableEq

/-- `SMSService.handle_inbound` composed with the conversation service (the
inbound `Message` log row is not modelled; `stateRow` is the contact's
`ConversationState` row, if any). -/
def sms_handle_inbound (db : DB) (o : ConvOracles) (contact : Contact)
    (stateRow : Option ConvState) (body : String)
    (business_name support_number : String) : Except SchedError InboundResult :=
  match is_compliance_keyword body with
  | (true, some keyword_type) =>
    (handle_compliance contact keyword_type business_name support_number o.now).map
      (fun p => InboundResult.complianceHandled p.1 p.2 true)
  | _ =>
    let r := process_message db o (some contact) stateRow body
    Except.ok (InboundResult.conversation r.1 r.2)

/-- Referential integrity of the database, as enforced by the schema of
`app/models/appointment.py`: every appointment's `slot_id` is a foreign key
into `availability_slots` (slots are pre-seeded and never deleted), ids are
primary keys (no duplicates), and ids of existing appointment rows are
below the generator. -/
def DBWF (db : DB) : Prop :=
  (∀ a ∈ db.appointments, ∃ s ∈ db.slots, s.id = a.slot_id) ∧
  (∀ a ∈ db.appointments, a.id < db.nextApptId) ∧
  db.slots.Pairwise (fun s t => s.id ≠ t.id) ∧
  db.appointments.Pairwise (fun a b => a.id ≠ b.id)

instance (db : DB) : Decidable (DBWF db) := by
  unfold DBWF
  infer_instance

/-! ### Concrete fixtures used by witnesses and counterexamples -/

/-- A database with one available slot. -/
def oneSlotDB : DB := { slots := [{ id := 10, start_time := 0, end_time := 0 }] }

/-- The appointment row created by booking slot 10 of `oneSlotDB` for
contact 1 at time 0. -/
def apptRow0 : Appointment :=
  { id := 0, contact_id := 1, slot_id := 10, status := "confirmed", booked_at := 0 }

/-- A database where contact 1 holds a confirmed appointment on the taken
slot 10 and slot 11 is open. -/
def twoSlotDB : DB :=
  { slots := [{ id := 10, start_time := 0, end_time := 0, is_available := false },
              { id := 11, start_time := 9, end_time := 9 }]
    appointments := [apptRow0]
    nextApptId := 1 }

/-- Trivial `strftime`/LLM behaviours for concrete evaluations. -/
def noopAI : AIOracles :=
  { timeTokenMatch := fun _ _ => false, dayTokenMatch := fun _ _ => false,
    llmSlotReply := fun _ _ => none, fmtSlotShort := fun _ _ => "", fmtSlotAt := fun _ _ => "" }

/-- Conversation oracles whose classifier always answers `i`. -/
def fixedOracles (i : IntentResult) (now : Int) : ConvOracles :=
  { detect := fun _ _ _ => i, ai := noopAI, now := now }

/-- An opted-in contact fixture. -/
def optedInContact : Contact :=
  { id := 1, phone_number := "+15550001111", opt_in_status := "opted_in" }

/-- A high-confidence CONFIRM classifier answer. -/
def confirmIntent : IntentResult := { intent := "CONFIRM", confidence := 1 }

/-- A zero-confidence UNCLEAR classifier answer. -/
def unclearIntent : IntentResult := { intent := "UNCLEAR", confidence := 0 }

/-- A presented-slot fixture. -/
def presentedA : PresentedSlot := { index := 1, slot_id := 10, start_time := 0, display := "d", id := 10 }

/-- A second presented-slot fixture. -/
def presentedB : PresentedSlot := { index := 2, slot_id := 11, start_time := 1, display := "e", id := 11 }

/-- A classifier payload reporting BOOK with confidence 0.3. -/
def payloadLowConf : RawPayload := { intent := some "BOOK", confidence := some (3/10) }


/-! ### Placeholder-template structure (C9 apparatus)

A campaign template is a concatenation of literal chunks and
brace-delimited placeholders.  `flattenToks` produces the template string;
the rendering theorems quantify over all such templates. -/

/-- Template tokens: literal chunks, `{k}` placeholders, and the
intermediate `${k}` form produced by the replace pass. -/
inductive TmplTok where
  | lit (s : String)
  | ph (k : String)
  | dph (k : String)
deriving Repr, DecidableEq

/-- The characters a token contributes to the template string. -/
def tokChars : TmplTok → List Char
  | .lit s => s.data
  | .ph k => '{' :: (k.data ++ ['}'])
  | .dph k => '$' :: '{' :: (k.data ++ ['}'])

/-- The template string of a token list. -/
def flattenToks (ts : List TmplTok) : List Char := (ts.map tokChars).flatten

/-- Hygiene of a chunk: free of braces and dollars. -/
def chunkOK (s : String) : Prop := ∀ c ∈ s.data, c ≠ '{' ∧ c ≠ '}' ∧ c ≠ '$'

/-- Hygiene of one token (for `dph`, additionally a key different from the
pass key is recorded separately). -/
def tokOK : TmplTok → Prop
  | .lit s => chunkOK s
  | .ph k => chunkOK k
  | .dph k => chunkOK k

/-- The replace pass for one key, at token level. -/
def replaceTok (key : String) : TmplTok → TmplTok
  | .lit s => .lit s
  | .ph k => if k = key then .dph k else .ph k
  | .dph k => .dph k

/-- `safe_substitute` at token level. -/
def subTokChars (m : String → Option String) : TmplTok → List Char
  | .lit s => s.data
  | .ph k => '{' :: (k.data ++ ['}'])
  | .dph k =>
    match m k with
    | some v => v.data
    | none => '$' :: '{' :: (k.data ++ ['}'])

/-- Identifier shape required by the `${k}` pattern. -/
def identOK (k : String) : Bool :=
  (match k.data with | [] => false | c :: _ => isIdentStart c) && k.data.all isIdentChar

/-- The rendered characters of one source token, following the spec of
`render_template`: known placeholders substitute the contact/settings
values (with defaults), everything else stays literal. -/
def renderTokChars (fn ln : Option String) (bn pn : String) : TmplTok → List Char
  | .lit s => s.data
  | .ph k =>
    if k = "first_name" then (pyOrStr fn "there").data
    else if k = "last_name" then (pyOrStr ln "").data
    else if k = "business_name" then bn.data
    else if k = "phone_number" then pn.data
    else '{' :: (k.data ++ ['}'])
  | .dph k => '$' :: '{' :: (k.data ++ ['}'])

/-! ## Theorems -/

/-- `find?` over an id-targeted in-place update: the found row is exactly
the updated row. -/
theorem find?_map_if {α : Type} (q : α → Bool) (f : α → α) (l : List α)
    (hf : ∀ a, q a = true → q (f a) = true) :
    (l.map (fun a => if q a then f a else a)).find? q = (l.find? q).map f := by
  induction l with
  | nil => rfl
  | cons a t ih =>
    by_cases h : q a
    · simp [h, hf a h]
    · simp [h, ih]

/-- The appointment row built by a successful `book_appointment`. -/
def bookedRow (db : DB) (c s : Nat) (now : Int) : Appointment :=
  { id := db.nextApptId, contact_id := c, slot_id := s,
    status := "confirmed", booked_at := now }

/-- The database after a successful `book_appointment`. -/
def bookedDB (db : DB) (c s : Nat) (now : Int) : DB :=
  { db with
      slots := db.slots.map (fun x => if x.id == s then { x with is_available := false } else x),
      appointments := db.appointments ++ [bookedRow db c s now],
      nextApptId := db.nextApptId + 1 }

/-- Branch equation: booking a present, available slot. -/
theorem book_ok_eq (db : DB) (c s : Nat) (now : Int) (slot0 : AvailabilitySlot)
    (hfind : findSlot db s = some slot0) (ha : slot0.is_available = true) :
    book_appointment db c s now = (Except.ok (bookedRow db c s now), bookedDB db c s now) := by
  unfold book_appointment bookedDB bookedRow
  rw [hfind]
  simp [ha]

/-- Branch equation: booking a slot that is absent or unavailable raises and
leaves the database unchanged. -/
theorem book_fail_eq (db : DB) (c s : Nat) (now : Int)
    (h : ∀ slot, findSlot db s = some slot → slot.is_available = false) :
    book_appointment db c s now =
      (Except.error (SchedError.slotUnavailable "The selected slot is no longer available."), db) := by
  unfold book_appointment
  cases hfind : findSlot db s with
  | none => simp
  | some slot => simp [h slot hfind]

/-- Looking up the booked slot in the post-booking database. -/
theorem bookedDB_findSlot (db : DB) (c s : Nat) (now : Int) :
    findSlot (bookedDB db c s now) s =
      (findSlot db s).map (fun x => { x with is_available := false }) := by
  unfold findSlot bookedDB
  exact find?_map_if _ _ _ (fun x hx => hx)

/-- After a successful booking the booked slot is found unavailable. -/
theorem book_ok_slot_unavailable (db : DB) (c s : Nat) (now : Int) (a : Appointment)
    (h : (book_appointment db c s now).1 = Except.ok a) :
    ∀ slot, findSlot (book_appointment db c s now).2 s = some slot →
      slot.is_available = false := by
  cases hfind : findSlot db s with
  | none =>
    rw [book_fail_eq db c s now (by intro slot hs; rw [hfind] at hs; cases hs)] at h
    cases h
  | some slot0 =>
    by_cases ha : slot0.is_available
    · rw [book_ok_eq db c s now slot0 hfind ha]
      intro slot hslot
      rw [bookedDB_findSlot, hfind] at hslot
      simp only [Option.map_some'] at hslot
      cases hslot
      rfl
    · rw [book_fail_eq db c s now
        (by intro slot hs; rw [hfind] at hs; cases hs; simpa using ha)] at h
      cases h

/-- On a database whose target slot is absent or unavailable, no booking in
any sequence succeeds. -/
theorem countBookSuccesses_zero (s : Nat) (now : Int) (cs : List Nat) :
    ∀ db : DB, (∀ slot, findSlot db s = some slot → slot.is_available = false) →
      countBookSuccesses db s now cs = 0 := by
  induction cs with
  | nil => intro db _; rfl
  | cons c rest ih =>
    intro db h
    unfold countBookSuccesses
    rw [book_fail_eq db c s now h]
    exact ih db h

/-- At most one booking in a sequence of attempts on one slot succeeds. -/
theorem countBookSuccesses_le_one (s : Nat) (now : Int) (cs : List Nat) :
    ∀ db : DB, countBookSuccesses db s now cs ≤ 1 := by
  induction cs with
  | nil => intro db; simp [countBookSuccesses]
  | cons c rest ih =>
    intro db
    unfold countBookSuccesses
    cases hb : book_appointment db c s now with
    | mk r db2 =>
      cases r with
      | ok a =>
        have hun : ∀ slot, findSlot db2 s = some slot → slot.is_available = false := by
          intro slot hslot
          have h1 : (book_appointment db c s now).1 = Except.ok a := by rw [hb]
          have := book_ok_slot_unavailable db c s now a h1 slot
          rw [hb] at this
          exact this hslot
        simp only
        rw [countBookSuccesses_zero s now rest db2 hun]
      | error e => exact ih db


/-- C1: `book_appointment` raises `SlotUnavailableError` exactly when the
slot is missing or unavailable (leaving the database unchanged); on success
it flips the slot's `is_available` to `false` and appends exactly one new
`confirmed` appointment referencing the contact and the slot; and over any
sequence of `book_appointment` calls on one slot, at most one call succeeds
(until some other operation reopens the slot). -/
theorem book_appointment_exclusive (db : DB) (c s : Nat) (now : Int) :
    (((book_appointment db c s now).1 =
        Except.error (SchedError.slotUnavailable "The selected slot is no longer available.")) ↔
      (findSlot db s = none ∨ ∃ slot, findSlot db s = some slot ∧ slot.is_available = false))
  ∧ (∀ e, (book_appointment db c s now).1 = Except.error e →
      e = SchedError.slotUnavailable "The selected slot is no longer available." ∧
      (book_appointment db c s now).2 = db)
  ∧ (∀ a, (book_appointment db c s now).1 = Except.ok a →
      a.status = "confirmed" ∧ a.contact_id = c ∧ a.slot_id = s ∧
      (book_appointment db c s now).2.appointments = db.appointments ++ [a] ∧
      ∃ slot, findSlot db s = some slot ∧ slot.is_available = true ∧
        findSlot (book_appointment db c s now).2 s = some { slot with is_available := false })
  ∧ (∀ contacts, countBookSuccesses db s now contacts ≤ 1) := by
  refine ⟨?_, ?_, ?_, fun contacts => countBookSuccesses_le_one s now contacts db⟩
  · cases hfind : findSlot db s with
    | none =>
      rw [book_fail_eq db c s now (by intro slot hs; rw [hfind] at hs; cases hs)]
      exact ⟨fun _ => Or.inl rfl, fun _ => rfl⟩
    | some slot =>
      by_cases ha : slot.is_available
      · rw [book_ok_eq db c s now slot hfind ha]
        constructor
        · intro h; simp at h
        · rintro (h | ⟨slot2, hs2, hav2⟩)
          · simp at h
          · injection hs2 with hs2
            rw [← hs2] at hav2
            rw [ha] at hav2
            simp at hav2
      · rw [book_fail_eq db c s now
          (by intro sl hs; rw [hfind] at hs; injection hs with hs; rw [← hs]; simpa using ha)]
        exact ⟨fun _ => Or.inr ⟨slot, rfl, by simpa using ha⟩, fun _ => rfl⟩
  · intro e he
    cases hfind : findSlot db s with
    | none =>
      rw [book_fail_eq db c s now (by intro slot hs; rw [hfind] at hs; cases hs)] at he ⊢
      injection he with he
      exact ⟨he.symm, rfl⟩
    | some slot =>
      by_cases ha : slot.is_available
      · rw [book_ok_eq db c s now slot hfind ha] at he
        cases he
      · rw [book_fail_eq db c s now
          (by intro sl hs; rw [hfind] at hs; injection hs with hs; rw [← hs]; simpa using ha)] at he ⊢
        injection he with he
        exact ⟨he.symm, rfl⟩
  · intro a ha
    cases hfind : findSlot db s with
    | none =>
      rw [book_fail_eq db c s now (by intro slot hs; rw [hfind] at hs; cases hs)] at ha
      cases ha
    | some slot =>
      by_cases hav : slot.is_available
      · rw [book_ok_eq db c s now slot hfind hav] at ha ⊢
        injection ha with ha
        rw [← ha]
        refine ⟨rfl, rfl, rfl, rfl, slot, rfl, hav, ?_⟩
        rw [bookedDB_findSlot, hfind]
        rfl
      · rw [book_fail_eq db c s now
          (by intro sl hs; rw [hfind] at hs; injection hs with hs; rw [← hs]; simpa using hav)] at ha
        cases ha

/-- Witness for C1 at a concrete database: the booking succeeds, appends the
appointment row, and repeated attempts on the same slot succeed at most
once. -/
theorem book_appointment_exclusive_witness :
    (book_appointment oneSlotDB 1 10 0).2.appointments = [apptRow0]
    ∧ countBookSuccesses oneSlotDB 10 0 [1, 2, 3] ≤ 1 := by
  have h := book_appointment_exclusive oneSlotDB 1 10 0
  refine ⟨?_, h.2.2.2 [1, 2, 3]⟩
  have hs := h.2.2.1 apptRow0 (by rfl)
  simpa using hs.2.2.2.1

/-- `find?` commutes with an id-preserving (predicate-preserving) map. -/
theorem find?_map_pred {α : Type} (q : α → Bool) (m : α → α) (l : List α)
    (hq : ∀ a, q (m a) = q a) :
    (l.map m).find? q = (l.find? q).map m := by
  induction l with
  | nil => rfl
  | cons a t ih =>
    by_cases h : q a
    · have hm : q (m a) = true := by rw [hq]; exact h
      simp [h, hm]
    · have hm : q (m a) = false := by rw [hq]; simpa using h
      simp [h, hm, ih]

/-- The appointment row written by a successful `cancel_appointment`. -/
def cancelledRow (appointment : Appointment) (reason : Option String) (now : Int) : Appointment :=
  { appointment with
      status := "cancelled", cancelled_at := some now,
      cancellation_reason := reason, version := pyIntOr appointment.version 1 + 1 }

/-- The database after a successful `cancel_appointment`. -/
def cancelledDB (db : DB) (appointment_id : Nat) (appointment : Appointment)
    (reason : Option String) (now : Int) : DB :=
  { db with
      appointments := db.appointments.map (fun a =>
        if a.id == appointment_id then cancelledRow appointment reason now else a),
      slots := db.slots.map (fun s =>
        if s.id == appointment.slot_id then { s with is_available := true } else s) }

/-- Branch equation: cancelling an appointment whose linked slot exists. -/
theorem cancel_ok_eq (db : DB) (aid : Nat) (reason : Option String) (now : Int)
    (appointment : Appointment) (slot : AvailabilitySlot)
    (hfa : findAppt db aid = some appointment)
    (hfs : findSlot db appointment.slot_id = some slot) :
    cancel_appointment db aid reason now =
      (Except.ok (cancelledRow appointment reason now),
       cancelledDB db aid appointment reason now) := by
  unfold cancel_appointment cancelledDB cancelledRow
  rw [hfa]
  dsimp only
  rw [hfs]

/-- Branch equation: cancelling a missing appointment id raises `ValueError`
and leaves the database unchanged. -/
theorem cancel_notfound_eq (db : DB) (aid : Nat) (reason : Option String) (now : Int)
    (h : findAppt db aid = none) :
    cancel_appointment db aid reason now =
      (Except.error (SchedError.valueError "Appointment not found."), db) := by
  unfold cancel_appointment
  rw [h]

/-- In a well-formed database the freshly booked appointment is found by its
id. -/
theorem bookedDB_findAppt (db : DB) (c s : Nat) (now : Int) (hwf : DBWF db) :
    findAppt (bookedDB db c s now) db.nextApptId = some (bookedRow db c s now) := by
  unfold findAppt bookedDB
  simp only
  rw [List.find?_append]
  have hnone : db.appointments.find? (fun a => a.id == db.nextApptId) = none := by
    rw [List.find?_eq_none]
    intro x hx
    have := hwf.2.1 x hx
    simp only [beq_iff_eq]
    omega
  rw [hnone]
  simp [bookedRow]

/-- C4: booking then cancelling restores the slot to available and leaves
the appointment cancelled with a stamped `cancelled_at`, the cancellation
reason, and a strictly larger version; cancelling a missing appointment id
raises the not-found `ValueError`, which is never a `SlotUnavailableError`. -/
theorem cancel_reopens_slot (db : DB) (c s : Nat) (now now2 : Int) (reason : Option String)
    (hwf : DBWF db) :
    (∀ a, (book_appointment db c s now).1 = Except.ok a →
      (cancel_appointment (book_appointment db c s now).2 a.id reason now2).1 =
          Except.ok (cancelledRow a reason now2) ∧
        (cancelledRow a reason now2).status = "cancelled" ∧
        (cancelledRow a reason now2).cancelled_at = some now2 ∧
        (cancelledRow a reason now2).cancellation_reason = reason ∧
        a.version < (cancelledRow a reason now2).version ∧
        ∃ slot, findSlot (cancel_appointment (book_appointment db c s now).2 a.id reason now2).2 s =
            some slot ∧ slot.is_available = true)
  ∧ (∀ aid, findAppt db aid = none →
      (cancel_appointment db aid reason now2).1 =
          Except.error (SchedError.valueError "Appointment not found.") ∧
      ∀ msg, (cancel_appointment db aid reason now2).1 ≠
          Except.error (SchedError.slotUnavailable msg)) := by
  constructor
  · intro a hok
    cases hfind : findSlot db s with
    | none =>
      rw [book_fail_eq db c s now (by intro slot hs; rw [hfind] at hs; cases hs)] at hok
      cases hok
    | some slot0 =>
      by_cases hav : slot0.is_available
      · rw [book_ok_eq db c s now slot0 hfind hav] at hok ⊢
        injection hok with hok
        rw [← hok]
        have hfa : findAppt (bookedDB db c s now) (bookedRow db c s now).id =
            some (bookedRow db c s now) := bookedDB_findAppt db c s now hwf
        have hfs : findSlot (bookedDB db c s now) (bookedRow db c s now).slot_id =
            some { slot0 with is_available := false } := by
          show findSlot (bookedDB db c s now) s = _
          rw [bookedDB_findSlot, hfind]
          rfl
        rw [cancel_ok_eq (bookedDB db c s now) (bookedRow db c s now).id reason now2
          (bookedRow db c s now) { slot0 with is_available := false } hfa hfs]
        refine ⟨rfl, rfl, rfl, rfl, Nat.one_lt_two, ?_⟩
        refine ⟨{ slot0 with is_available := true }, ?_, rfl⟩
        show findSlot (cancelledDB (bookedDB db c s now) (bookedRow db c s now).id
          (bookedRow db c s now) reason now2) s = _
        unfold findSlot cancelledDB
        simp only
        rw [find?_map_pred (fun x : AvailabilitySlot => x.id == s)
          (fun x : AvailabilitySlot =>
            if x.id == (bookedRow db c s now).slot_id then { x with is_available := true } else x)
          _ (by
            intro x
            by_cases hx : x.id == (bookedRow db c s now).slot_id <;> simp [hx])]
        have : findSlot (bookedDB db c s now) s = some { slot0 with is_available := false } := by
          rw [bookedDB_findSlot, hfind]; rfl
        unfold findSlot at this
        rw [this]
        have hsid : slot0.id = s := by simpa using List.find?_some hfind
        simp [bookedRow, hsid]
      · rw [book_fail_eq db c s now
          (by intro sl hs; rw [hfind] at hs; injection hs with hs; rw [← hs]; simpa using hav)] at hok
        cases hok
  · intro aid hnone
    rw [cancel_notfound_eq db aid reason now2 hnone]
    exact ⟨rfl, by intro msg h; cases h⟩

/-- Witness for C4, at a concrete one-slot database. -/
theorem cancel_reopens_slot_witness :
    (cancel_appointment (book_appointment oneSlotDB 1 10 0).2 0 (some "no") 5).1 =
      Except.ok (cancelledRow apptRow0 (some "no") 5)
    ∧ (cancel_appointment oneSlotDB 99 (some "no") 5).1 =
      Except.error (SchedError.valueError "Appointment not found.") := by
  have h := cancel_reopens_slot oneSlotDB 1 10 0 5 (some "no") (by decide)
  exact ⟨(h.1 apptRow0 (by rfl)).1, (h.2 99 (by rfl)).1⟩

/-- The superseded appointment row written by `reschedule_appointment`. -/
def rescheduledOld (appointment : Appointment) : Appointment :=
  { appointment with status := "rescheduled", version := pyIntOr appointment.version 1 + 1 }

/-- The replacement appointment row written by `reschedule_appointment`. -/
def rescheduleRow (db : DB) (appointment : Appointment) (new_slot_id : Nat) (now : Int) :
    Appointment :=
  { id := db.nextApptId, contact_id := appointment.contact_id, slot_id := new_slot_id,
    status := "confirmed", booked_at := now, rescheduled_from_id := some appointment.id }

/-- The database after a successful `reschedule_appointment`. -/
def rescheduledDB (db : DB) (appointment_id : Nat) (appointment : Appointment)
    (new_slot_id : Nat) (now : Int) : DB :=
  { db with
      slots := (db.slots.map (fun s =>
          if s.id == appointment.slot_id then { s with is_available := true } else s)).map
        (fun s => if s.id == new_slot_id then { s with is_available := false } else s),
      appointments := (db.appointments.map (fun a =>
          if a.id == appointment_id then rescheduledOld appointment else a)) ++
        [rescheduleRow db appointment new_slot_id now],
      nextApptId := db.nextApptId + 1 }

/-- Branch equation: successful reschedule (the new slot differs from the
appointment's own slot, so the two per-slot locks are distinct). -/
theorem reschedule_ok_eq (db : DB) (aid nsid : Nat) (now : Int)
    (appointment : Appointment) (old_slot new_slot : AvailabilitySlot)
    (hfa : findAppt db aid = some appointment)
    (hne : appointment.slot_id ≠ nsid)
    (hos : findSlot db appointment.slot_id = some old_slot)
    (hns : findSlot db nsid = some new_slot)
    (hav : new_slot.is_available = true) :
    reschedule_appointment db aid nsid now =
      RescheduleOutcome.done (Except.ok (rescheduleRow db appointment nsid now))
        (rescheduledDB db aid appointment nsid now) := by
  unfold reschedule_appointment rescheduledDB rescheduleRow rescheduledOld
  rw [hfa]
  dsimp only
  rw [show (appointment.slot_id == nsid) = false from beq_eq_false_iff_ne.mpr hne]
  simp only [Bool.false_eq_true, if_false]
  rw [hos]
  dsimp only
  rw [hns]
  simp [hav]

/-- Branch equation: the new slot differs from the appointment's own slot
and is missing or unavailable (with the appointment and its old slot
present): `SlotUnavailableError`, database unchanged. -/
theorem reschedule_unavail_eq (db : DB) (aid nsid : Nat) (now : Int)
    (appointment : Appointment) (old_slot : AvailabilitySlot)
    (hfa : findAppt db aid = some appointment)
    (hne : appointment.slot_id ≠ nsid)
    (hos : findSlot db appointment.slot_id = some old_slot)
    (hnew : ∀ sl, findSlot db nsid = some sl → sl.is_available = false) :
    reschedule_appointment db aid nsid now =
      RescheduleOutcome.done
        (Except.error (SchedError.slotUnavailable "Requested reschedule slot is unavailable."))
        db := by
  unfold reschedule_appointment
  rw [hfa]
  dsimp only
  rw [show (appointment.slot_id == nsid) = false from beq_eq_false_iff_ne.mpr hne]
  simp only [Bool.false_eq_true, if_false]
  rw [hos]
  dsimp only
  cases hns : findSlot db nsid with
  | none => simp
  | some sl => simp [hnew sl hns]

/-- Branch equation: rescheduling an existing appointment onto its own slot
— whatever that slot's availability — enters the same per-slot lock twice
and deadlocks. -/
theorem reschedule_deadlock_eq (db : DB) (aid : Nat) (now : Int)
    (appointment : Appointment) (hfa : findAppt db aid = some appointment) :
    reschedule_appointment db aid appointment.slot_id now =
      RescheduleOutcome.deadlock := by
  unfold reschedule_appointment
  rw [hfa]
  simp

/-- C2 evaluated at the failing input: in `twoSlotDB`, appointment `0` is
`confirmed` on slot `10` and that slot is not available, so the claim (and
the spec sentence "Fails with `SlotUnavailableError` if the new slot is no
longer available") requires `reschedule_appointment(0, 10)` to raise
`SlotUnavailableError` leaving every field unchanged.  Instead the sorted
in-process lock-key list is the duplicated `["10", "10"]` and the same
non-reentrant `asyncio.Lock` is acquired twice by one task: the call
deadlocks before reading either slot — it never raises and never returns,
so no caller can observe the specified error. -/
theorem reschedule_same_slot_deadlocks :
    findAppt twoSlotDB 0 = some apptRow0 ∧ apptRow0.slot_id = 10 ∧
    (findSlot twoSlotDB 10).map AvailabilitySlot.is_available = some false ∧
    reschedule_appointment twoSlotDB 0 10 2 = RescheduleOutcome.deadlock := by
  exact ⟨rfl, rfl, rfl, rfl⟩


/-- Counterexample to C3 as stated: a HELP keyword is answered by the
compliance gate with `force_send = true` and without reaching the
conversation engine, but the contact is returned entirely unchanged — no
`opt_in_status` mutation and no timestamp is stamped (`opt_in_date` and
`opt_out_date` of the input fixture are `none` and stay `none`). -/
theorem help_keyword_no_mutation_counterexample :
    sms_handle_inbound {} (fixedOracles confirmIntent 5)
        { id := 1, phone_number := "+15550001111", opt_in_status := "pending" } none
        "HELP" "Acme" "+15551234567" =
      Except.ok (InboundResult.complianceHandled
        { id := 1, phone_number := "+15550001111", opt_in_status := "pending" }
        "Acme: For support call +15551234567. Msg frequency varies. Msg&data rates may apply. Reply STOP to cancel."
        true) := by
  rfl

/-- C3 (amended): for every inbound body whose trimmed upper-cased form is a
compliance keyword, `handle_inbound` answers synchronously from the
compliance gate with `force_send = true` and returns without invoking the
conversation state machine or the intent classifier (the result is a
`complianceHandled`, never a `conversation`, for every conversation state
and every classifier behaviour): opt-out keywords set `opt_in_status` to
`"opted_out"` stamping `opt_out_date`, opt-in keywords set it to
`"opted_in"` stamping `opt_in_date`, and help keywords leave the contact
unchanged. -/
theorem compliance_gate_spec (db : DB) (o : ConvOracles) (contact : Contact)
    (stateRow : Option ConvState) (body business_name support_number : String) :
    (pyUpper (pyStrip body) ∈ OPT_OUT_KEYWORDS →
      sms_handle_inbound db o contact stateRow body business_name support_number =
        Except.ok (InboundResult.complianceHandled
          { contact with opt_in_status := "opted_out", opt_out_date := some o.now }
          "You have been unsubscribed and will not receive further messages. Reply START to re-subscribe."
          true))
  ∧ (pyUpper (pyStrip body) ∈ OPT_IN_KEYWORDS →
      sms_handle_inbound db o contact stateRow body business_name support_number =
        Except.ok (InboundResult.complianceHandled
          { contact with opt_in_status := "opted_in", opt_in_date := some o.now }
          ("You have been re-subscribed to " ++ business_name ++ " messages. Reply STOP to unsubscribe.")
          true))
  ∧ (pyUpper (pyStrip body) ∈ HELP_KEYWORDS →
      sms_handle_inbound db o contact stateRow body business_name support_number =
        Except.ok (InboundResult.complianceHandled contact
          (business_name ++ ": For support call " ++ support_number ++
            ". Msg frequency varies. Msg&data rates may apply. Reply STOP to cancel.")
          true)) := by
  refine ⟨?_, ?_, ?_⟩
  · intro h
    have hk : is_compliance_keyword body = (true, some "opt_out") := by
      simp only [OPT_OUT_KEYWORDS, List.mem_cons, List.not_mem_nil, or_false] at h
      unfold is_compliance_keyword
      rcases h with h | h | h | h | h <;> rw [h] <;> rfl
    unfold sms_handle_inbound
    rw [hk]
    rfl
  · intro h
    have hk : is_compliance_keyword body = (true, some "opt_in") := by
      simp only [OPT_IN_KEYWORDS, List.mem_cons, List.not_mem_nil, or_false] at h
      unfold is_compliance_keyword
      rcases h with h | h | h <;> rw [h] <;> rfl
    unfold sms_handle_inbound
    rw [hk]
    rfl
  · intro h
    have hk : is_compliance_keyword body = (true, some "help") := by
      simp only [HELP_KEYWORDS, List.mem_cons, List.not_mem_nil, or_false] at h
      unfold is_compliance_keyword
      rcases h with h | h <;> rw [h] <;> rfl
    unfold sms_handle_inbound
    rw [hk]
    rfl

/-- Witness for C3 (amended): `" stop "` opts the contact out and is
answered with the canned opt-out reply, force-sent. -/
theorem compliance_gate_spec_witness :
    sms_handle_inbound {} (fixedOracles confirmIntent 5) optedInContact none
        " stop " "Acme" "+15551234567" =
      Except.ok (InboundResult.complianceHandled
        { optedInContact with opt_in_status := "opted_out", opt_out_date := some 5 }
        "You have been unsubscribed and will not receive further messages. Reply START to re-subscribe."
        true) := by
  have h := compliance_gate_spec {} (fixedOracles confirmIntent 5) optedInContact none
    " stop " "Acme" "+15551234567"
  exact h.1 (by decide)

/-- C5: an opted-out contact (or an unknown phone number) is a silent no-op
of `_process_message_locked`, for every database, conversation-state row,
message body and classifier behaviour: the outcome is `skipped` — no
`ConversationState` field is written and nothing is handed to the outbound
channel — and the classifier-invocation count is `0`. -/
theorem opted_out_contact_noop (db : DB) (o : ConvOracles) (stateRow : Option ConvState)
    (body : String) :
    (∀ contact : Contact, contact.opt_in_status = "opted_out" →
      process_message db o (some contact) stateRow body = (ProcOutcome.skipped, 0))
  ∧ process_message db o none stateRow body = (ProcOutcome.skipped, 0) := by
  constructor
  · intro contact h
    unfold process_message
    simp [h]
  · rfl

/-- Witness for C5: an opted-out contact sending "book" is skipped with zero
classifier calls. -/
theorem opted_out_contact_noop_witness :
    process_message {} (fixedOracles confirmIntent 0)
        (some { optedInContact with opt_in_status := "opted_out" }) none "book" =
      (ProcOutcome.skipped, 0) := by
  have h := opted_out_contact_noop {} (fixedOracles confirmIntent 0) none "book"
  exact h.1 { optedInContact with opt_in_status := "opted_out" } (by rfl)

/-- C7 evaluated at the failing input: in `confirming_cancel` with a CONFIRM
intent and a `pending_appointment_id` that no longer exists, the
`ValueError("Appointment not found.")` of `cancel_appointment` escapes
`_process_message_locked` uncaught: the outcome is `failed` — no state is
committed and no reply is produced — contradicting the specified
abort-to-idle-with-a-reply behaviour. -/
theorem confirming_cancel_notfound_propagates :
    process_message {} (fixedOracles confirmIntent 0) (some optedInContact)
        (some { current_state := "confirming_cancel"
                context := { pending_appointment_id := some 7 } }) "yes" =
      (ProcOutcome.failed (SchedError.valueError "Appointment not found."), 1) := by
  rfl

/-- One failed slot-selection turn of `_handle_showing_slots` (intent is not
CANCEL/RESCHEDULE and the message resolves to no presented slot): the
retry counter is incremented by exactly one, and the handler re-prompts in
`showing_slots` below `MAX_RETRIES` or resets to idle at the threshold. -/
theorem showing_slots_fail_step (db : DB) (o : ConvOracles) (contact : Contact)
    (message : String) (context : Ctx) (history : List (String × String))
    (hc : (o.detect message history context.presented_slots).intent ≠ "CANCEL")
    (hr : (o.detect message history context.presented_slots).intent ≠ "RESCHEDULE")
    (hsel : parse_slot_selection o.ai message context.presented_slots = none) :
    handle_showing_slots db o contact message context history =
      if MAX_RETRIES ≤ context.retry_count + 1 then
        (Except.ok ⟨"idle",
          "Let\x27s reset. Reply BOOK whenever you\x27re ready and I will share fresh times.",
          { retry_count := 0 }, db⟩, 1)
      else
        (Except.ok ⟨"showing_slots",
          "I didn\x27t catch that slot. Reply with the number from the list.",
          { context with
              retry_count := context.retry_count + 1
              last_intent := some (o.detect message history context.presented_slots).intent },
          db⟩, 1) := by
  unfold handle_showing_slots
  rw [if_neg (by push_neg; exact ⟨hc, hr⟩)]
  rw [hsel]

/-- C6: in `showing_slots`, any message that resolves to no presented slot
(and is not a CANCEL/RESCHEDULE intent) increments `retry_count` by exactly
one; the first and second such failures (from `retry_count = 0`) keep the
state `showing_slots` with `presented_slots` preserved and a re-prompt,
while exactly the third failure resets to idle with the reset message and
`retry_count = 0`. -/
theorem showing_slots_retry_spec (db : DB) (o : ConvOracles) (contact : Contact)
    (message : String) (context : Ctx)
    (hdet : ∀ hist : List (String × String),
      (o.detect message hist context.presented_slots).intent ≠ "CANCEL" ∧
      (o.detect message hist context.presented_slots).intent ≠ "RESCHEDULE")
    (hsel : parse_slot_selection o.ai message context.presented_slots = none) :
    (∀ history, context.retry_count + 1 < MAX_RETRIES →
      handle_showing_slots db o contact message context history =
        (Except.ok ⟨"showing_slots",
          "I didn\x27t catch that slot. Reply with the number from the list.",
          { context with
              retry_count := context.retry_count + 1
              last_intent := some (o.detect message history context.presented_slots).intent },
          db⟩, 1))
  ∧ (∀ history, MAX_RETRIES ≤ context.retry_count + 1 →
      handle_showing_slots db o contact message context history =
        (Except.ok ⟨"idle",
          "Let\x27s reset. Reply BOOK whenever you\x27re ready and I will share fresh times.",
          { retry_count := 0 }, db⟩, 1))
  ∧ (context.retry_count = 0 → ∀ h1 h2 h3 : List (String × String),
      handle_showing_slots db o contact message context h1 =
        (Except.ok ⟨"showing_slots",
          "I didn\x27t catch that slot. Reply with the number from the list.",
          { context with
              retry_count := 1
              last_intent := some (o.detect message h1 context.presented_slots).intent }, db⟩, 1)
      ∧ handle_showing_slots db o contact message
          { context with
              retry_count := 1
              last_intent := some (o.detect message h1 context.presented_slots).intent } h2 =
        (Except.ok ⟨"showing_slots",
          "I didn\x27t catch that slot. Reply with the number from the list.",
          { context with
              retry_count := 2
              last_intent := some (o.detect message h2 context.presented_slots).intent }, db⟩, 1)
      ∧ handle_showing_slots db o contact message
          { context with
              retry_count := 2
              last_intent := some (o.detect message h2 context.presented_slots).intent } h3 =
        (Except.ok ⟨"idle",
          "Let\x27s reset. Reply BOOK whenever you\x27re ready and I will share fresh times.",
          { retry_count := 0 }, db⟩, 1)) := by
  refine ⟨?_, ?_, ?_⟩
  · intro history hlt
    rw [showing_slots_fail_step db o contact message context history
      (hdet history).1 (hdet history).2 hsel]
    rw [if_neg (by omega)]
  · intro history hge
    rw [showing_slots_fail_step db o contact message context history
      (hdet history).1 (hdet history).2 hsel]
    rw [if_pos hge]
  · intro h0 h1 h2 h3
    refine ⟨?_, ?_, ?_⟩
    · rw [showing_slots_fail_step db o contact message context h1
        (hdet h1).1 (hdet h1).2 hsel]
      rw [if_neg (by unfold MAX_RETRIES; omega), h0]
    · rw [showing_slots_fail_step db o contact message
        { context with
            retry_count := 1
            last_intent := some (o.detect message h1 context.presented_slots).intent } h2
        (hdet h2).1 (hdet h2).2 hsel]
      rw [if_neg (by unfold MAX_RETRIES; simp)]
    · rw [showing_slots_fail_step db o contact message
        { context with
            retry_count := 2
            last_intent := some (o.detect message h2 context.presented_slots).intent } h3
        (hdet h3).1 (hdet h3).2 hsel]
      rw [if_pos (by unfold MAX_RETRIES; simp)]

/-- Witness for C6 on a concrete context: the third consecutive failure
resets to idle. -/
theorem showing_slots_retry_spec_witness :
    handle_showing_slots {} (fixedOracles unclearIntent 0) optedInContact "gibberish"
        { presented_slots := [presentedA], retry_count := 2 } [] =
      (Except.ok ⟨"idle",
        "Let\x27s reset. Reply BOOK whenever you\x27re ready and I will share fresh times.",
        { retry_count := 0 }, {}⟩, 1) := by
  have h := showing_slots_retry_spec {} (fixedOracles unclearIntent 0) optedInContact "gibberish"
    { presented_slots := [presentedA], retry_count := 2 }
    (by
      intro hist
      exact ⟨by show ("UNCLEAR" : String) ≠ "CANCEL"; decide,
             by show ("UNCLEAR" : String) ≠ "RESCHEDULE"; decide⟩) (by rfl)
  exact h.2.1 [] (by decide)

/-- The deterministic fallback classifier only ever answers an intent from
the fixed eight-intent vocabulary. -/
theorem heuristic_intent_mem (message conversation_state : String)
    (slots : List PresentedSlot) :
    (heuristic_intent_result message conversation_state slots).intent ∈ INTENTS := by
  unfold heuristic_intent_result
  dsimp only
  split_ifs <;> decide

/-- `_parse_intent_response` only ever answers an intent from the fixed
vocabulary (unknown labels collapse to UNCLEAR). -/
theorem parse_intent_mem (payload : Option RawPayload) :
    (parse_intent_response payload).intent ∈ INTENTS := by
  unfold parse_intent_response
  cases payload with
  | none => decide
  | some p =>
    dsimp only
    by_cases h : INTENTS.contains (intentAliases (pyUpper (pyStrip (p.intent.getD "UNCLEAR"))))
    · rw [if_pos h]
      exact List.mem_of_elem_eq_true h
    · rw [if_neg h]
      decide

/-- C8: `detect_intent` never raises (it is a total function of the
classifier outcome): its intent is always in the eight-intent vocabulary;
whenever the parsed classifier payload has confidence below 0.6 the answer
is UNCLEAR regardless of the reported label; and when the classifier call
raises or times out (`classifier_response = none`) the result is exactly
the deterministic keyword/heuristic classifier, whose intent is also always
in the vocabulary. -/
theorem detect_intent_degrades (resp : Option (Option RawPayload))
    (message conversation_state : String) (slots : List PresentedSlot) :
    (detect_intent resp message conversation_state slots).intent ∈ INTENTS
  ∧ (∀ payload, resp = some payload → (parse_intent_response payload).confidence < 3/5 →
      (detect_intent resp message conversation_state slots).intent = "UNCLEAR")
  ∧ (resp = none →
      detect_intent resp message conversation_state slots =
        heuristic_intent_result message conversation_state slots)
  ∧ (heuristic_intent_result message conversation_state slots).intent ∈ INTENTS := by
  refine ⟨?_, ?_, ?_, heuristic_intent_mem message conversation_state slots⟩
  · cases resp with
    | none => exact heuristic_intent_mem message conversation_state slots
    | some payload =>
      unfold detect_intent
      dsimp only
      by_cases hc : (parse_intent_response payload).confidence < 3/5
      · rw [if_pos hc]
        show ("UNCLEAR" : String) ∈ INTENTS
        decide
      · rw [if_neg hc]
        exact parse_intent_mem payload
  · intro payload hp hconf
    rw [hp]
    unfold detect_intent
    dsimp only
    rw [if_pos hconf]
  · intro h
    rw [h]
    rfl

/-- Witness for C8: a parsed payload labelled BOOK with confidence 0.3
comes back as UNCLEAR. -/
theorem detect_intent_degrades_witness :
    (detect_intent (some (some payloadLowConf)) "m" "idle" []).intent = "UNCLEAR" := by
  have h := detect_intent_degrades (some (some payloadLowConf)) "m" "idle" []
  refine h.2.1 (some payloadLowConf) rfl ?_
  have hconf : (parse_intent_response (some payloadLowConf)).confidence =
      max 0 (min 1 (3/10 : ℚ)) := by
    unfold parse_intent_response payloadLowConf
    dsimp only
    norm_num
  rw [hconf]
  norm_num

/-- The head of a list of slot ids harvested from `presented` is one of the
presented ids. -/
theorem filterMap_id_head_mem (presented : List PresentedSlot) (f : PresentedSlot → Option Nat)
    (hf : ∀ p r, f p = some r → r = p.id) (l : List Nat) (hl : l = presented.filterMap f) :
    l.head? = none ∨ ∃ p ∈ presented, l.head? = some p.id := by
  cases l with
  | nil => exact Or.inl rfl
  | cons a t =>
    right
    have ha : a ∈ presented.filterMap f := by rw [← hl]; exact List.mem_cons_self a t
    obtain ⟨p, hp, hfp⟩ := List.mem_filterMap.mp ha
    exact ⟨p, hp, by rw [hf p a hfp]; rfl⟩

/-- C10: `parse_slot_selection` only ever answers `none` or the id of one of
the presented slots (the LLM fallback is validated against the presented
ids); an empty presented list and an empty (or whitespace-only) message give
`none`; and a numeric token `k` with `1 ≤ k ≤ |presented|` deterministically
selects the k-th presented slot for every LLM / token-matching behaviour —
the LLM is never consulted on that path. -/
theorem parse_slot_selection_validated (o : AIOracles) (message : String)
    (presented : List PresentedSlot) :
    (parse_slot_selection o message presented = none ∨
      ∃ p, p ∈ presented ∧ parse_slot_selection o message presented = some p.id)
  ∧ (presented = [] → parse_slot_selection o message presented = none)
  ∧ (pyLower (pyStrip message) = "" → parse_slot_selection o message presented = none)
  ∧ (∀ k, 1 ≤ k → k ≤ presented.length →
      findNumericToken (pyLower (pyStrip message)) = some k →
      ∀ llm tm dm, parse_slot_selection
          { o with llmSlotReply := llm, timeTokenMatch := tm, dayTokenMatch := dm }
          message presented =
        (presented.get? (k - 1)).map (·.id)) := by
  refine ⟨?_, ?_, ?_, ?_⟩
  · unfold parse_slot_selection
    split
    · exact Or.inl rfl
    · dsimp only
      split
      · exact Or.inl rfl
      · split
        · rename_i r heq
          right
          cases hnum : findNumericToken (pyLower (pyStrip message)) with
          | none => rw [hnum] at heq; cases heq
          | some choice =>
            rw [hnum] at heq
            dsimp only at heq
            by_cases hin : 1 ≤ choice ∧ choice ≤ presented.length
            · rw [if_pos hin] at heq
              rw [Option.map_eq_some'] at heq
              obtain ⟨p, hg, hpr⟩ := heq
              exact ⟨p, List.get?_mem hg, by rw [← hpr]⟩
            · rw [if_neg hin] at heq
              cases heq
        · split
          · rename_i r heq2
            right
            obtain ⟨wn, hwn, hf⟩ := List.exists_of_findSome?_eq_some heq2
            split at hf
            · rw [Option.map_eq_some'] at hf
              obtain ⟨p, hg, hpr⟩ := hf
              exact ⟨p, List.get?_mem hg, by rw [← hpr]⟩
            · cases hf
          · split
            · exact filterMap_id_head_mem presented _
                (by
                  intro p r h
                  split at h
                  · injection h with h2
                    exact h2.symm
                  · cases h)
                _ rfl
            · split
              · exact filterMap_id_head_mem presented _
                  (by
                    intro p r h
                    split at h
                    · injection h with h2
                      exact h2.symm
                    · cases h)
                  _ rfl
              · split
                · exact Or.inl rfl
                · rename_i selected heq3
                  by_cases hany : presented.any (fun slot => slot.id == selected) = true
                  · rw [if_pos hany]
                    right
                    obtain ⟨slot, hmem, hid⟩ := List.any_eq_true.mp hany
                    refine ⟨slot, hmem, ?_⟩
                    have hs : slot.id = selected := by simpa using hid
                    rw [hs]
                  · rw [if_neg hany]
                    exact Or.inl rfl
  · intro h
    rw [h]
    rfl
  · intro h
    unfold parse_slot_selection
    split
    · rfl
    · dsimp only
      rw [if_pos h]
  · intro k hk1 hk2 hnum llm tm dm
    unfold parse_slot_selection
    rw [if_neg (by
      intro hempty
      rw [List.isEmpty_iff] at hempty
      rw [hempty] at hk2
      simp at hk2
      omega)]
    dsimp only
    rw [if_neg (by
      intro hz
      rw [hz] at hnum
      simp [findNumericToken, findNumericTokenAux] at hnum)]
    rw [hnum]
    dsimp only
    rw [if_pos ⟨hk1, hk2⟩]
    cases hg : presented.get? (k - 1) with
    | some p => rfl
    | none =>
      exfalso
      rw [List.get?_eq_none] at hg
      omega

/-- Witness for C10: the message "2" deterministically selects the second
presented slot. -/
theorem parse_slot_selection_validated_witness :
    parse_slot_selection noopAI "2" [presentedA, presentedB] = some 11 := by
  have h := parse_slot_selection_validated noopAI "2" [presentedA, presentedB]
  exact h.2.2.2 2 (by decide) (by decide) (by rfl)
    noopAI.llmSlotReply noopAI.timeTokenMatch noopAI.dayTokenMatch

/-- Unfolding equation of `pyReplaceChars` at a cons cell. -/
theorem pyReplaceChars_cons (pat rep : List Char) (c : Char) (rest : List Char) :
    pyReplaceChars pat rep (c :: rest) =
      if pat.isEmpty then c :: rest
      else if pat.isPrefixOf (c :: rest) then
        rep ++ pyReplaceChars pat rep (rest.drop (pat.length - 1))
      else c :: pyReplaceChars pat rep rest := by
  simp only [pyReplaceChars]

theorem isPrefixOf_append_self (p t : List Char) : p.isPrefixOf (p ++ t) = true := by
  induction p with
  | nil => simp [List.isPrefixOf]
  | cons a p ih => simp [List.isPrefixOf, ih]

/-- A `"{key}"` pattern cannot start inside a brace-free chunk. -/
theorem pyReplace_append_nobrace (p' rep : List Char) (s : List Char)
    (hs : ∀ c ∈ s, c ≠ '{') (rest : List Char) :
    pyReplaceChars ('{' :: p') rep (s ++ rest) = s ++ pyReplaceChars ('{' :: p') rep rest := by
  induction s with
  | nil => rfl
  | cons c s ih =>
    have hc : c ≠ '{' := hs c (List.mem_cons_self c s)
    rw [List.cons_append, pyReplaceChars_cons]
    rw [if_neg (by simp)]
    rw [if_neg (by simp [List.isPrefixOf, Ne.symm hc])]
    rw [ih (fun x hx => hs x (List.mem_cons_of_mem c hx))]
    rfl

/-- A `"key}"` pattern never matches a differing brace-free name followed by
the closing brace. -/
theorem braced_isPrefixOf_false (key : List Char) (hkey : ∀ c ∈ key, c ≠ '}') :
    ∀ k : List Char, (∀ c ∈ k, c ≠ '}') → key ≠ k → ∀ rest : List Char,
      (key ++ ['}']).isPrefixOf (k ++ '}' :: rest) = false := by
  induction key with
  | nil =>
    intro k hk hne rest
    cases k with
    | nil => exact absurd rfl hne
    | cons c k2 =>
      have : c ≠ '}' := hk c (List.mem_cons_self c k2)
      simp [List.isPrefixOf, Ne.symm this]
  | cons a key2 ih =>
    intro k hk hne rest
    have ha : a ≠ '}' := hkey a (List.mem_cons_self a key2)
    cases k with
    | nil => simp [List.isPrefixOf, ha]
    | cons c k2 =>
      by_cases hac : a = c
      · subst hac
        have hne2 : key2 ≠ k2 := by
          intro h
          exact hne (by rw [h])
        have hrec := ih (fun x hx => hkey x (List.mem_cons_of_mem a hx)) k2
          (fun x hx => hk x (List.mem_cons_of_mem a hx)) hne2 rest
        simp only [List.cons_append, List.isPrefixOf, List.append_eq]
        rw [hrec]
        simp
      · simp [List.isPrefixOf, hac]

/-- The pattern matches itself and the scan resumes after it. -/
theorem pyReplace_cons_match (c0 : Char) (p' rep rest : List Char) :
    pyReplaceChars (c0 :: p') rep ((c0 :: p') ++ rest) =
      rep ++ pyReplaceChars (c0 :: p') rep rest := by
  rw [List.cons_append, pyReplaceChars_cons]
  rw [if_neg (by simp)]
  rw [if_pos (by
    rw [← List.cons_append]
    exact isPrefixOf_append_self (c0 :: p') rest)]
  simp [List.drop_left]

theorem flattenToks_cons (t : TmplTok) (ts : List TmplTok) :
    flattenToks (t :: ts) = tokChars t ++ flattenToks ts := by
  simp [flattenToks]

/-- The scan passes over a non-matching `{k}` placeholder unchanged. -/
theorem pyReplace_skip_ph (key k : String) (hkey : chunkOK key) (hk : chunkOK k)
    (hne : k.data ≠ key.data) (rep rest : List Char) :
    pyReplaceChars ('{' :: (key.data ++ ['}'])) rep ('{' :: (k.data ++ ('}' :: rest))) =
      '{' :: (k.data ++ ('}' :: pyReplaceChars ('{' :: (key.data ++ ['}'])) rep rest)) := by
  rw [pyReplaceChars_cons]
  rw [if_neg (by simp)]
  rw [if_neg (by
    simp only [List.isPrefixOf, List.append_eq, Bool.and_eq_true, beq_iff_eq]
    intro hcontra
    have := braced_isPrefixOf_false key.data (fun c hc => (hkey c hc).2.1) k.data
      (fun c hc => (hk c hc).2.1) (fun h => hne h.symm) rest
    rw [hcontra.2] at this
    cases this)]
  congr 1
  rw [pyReplace_append_nobrace (key.data ++ ['}']) rep k.data
    (fun c hc => (hk c hc).1) ('}' :: rest)]
  congr 1
  rw [pyReplaceChars_cons]
  rw [if_neg (by simp)]
  rw [if_neg (by simp [List.isPrefixOf])]

/-- The scan passes over a non-matching `${k}` placeholder unchanged. -/
theorem pyReplace_skip_dph (key k : String) (hkey : chunkOK key) (hk : chunkOK k)
    (hne : k.data ≠ key.data) (rep rest : List Char) :
    pyReplaceChars ('{' :: (key.data ++ ['}'])) rep ('$' :: '{' :: (k.data ++ ('}' :: rest))) =
      '$' :: '{' :: (k.data ++ ('}' :: pyReplaceChars ('{' :: (key.data ++ ['}'])) rep rest)) := by
  rw [pyReplaceChars_cons]
  rw [if_neg (by simp)]
  rw [if_neg (by simp [List.isPrefixOf])]
  congr 1
  exact pyReplace_skip_ph key k hkey hk hne rep rest

/-- One replace pass distributes over the token structure: exactly the
`{key}` placeholders become `${key}`. -/
theorem pyReplace_flatten (key : String) (hkey : chunkOK key) (ts : List TmplTok)
    (hts : ∀ t ∈ ts, tokOK t)
    (hdph : ∀ k, TmplTok.dph k ∈ ts → k ≠ key) :
    pyReplaceChars ('{' :: (key.data ++ ['}'])) ('$' :: '{' :: (key.data ++ ['}']))
        (flattenToks ts) =
      flattenToks (ts.map (replaceTok key)) := by
  induction ts with
  | nil => simp [flattenToks, pyReplaceChars]
  | cons t ts ih =>
    have hts2 : ∀ x ∈ ts, tokOK x := fun x hx => hts x (List.mem_cons_of_mem t hx)
    have hdph2 : ∀ k, TmplTok.dph k ∈ ts → k ≠ key :=
      fun k hk => hdph k (List.mem_cons_of_mem t hk)
    have hrec := ih hts2 hdph2
    cases t with
    | lit s =>
      have hOK : chunkOK s := hts (.lit s) (List.mem_cons_self _ _)
      rw [flattenToks_cons, List.map_cons, flattenToks_cons]
      show pyReplaceChars _ _ (s.data ++ flattenToks ts) = s.data ++ _
      rw [pyReplace_append_nobrace _ _ s.data (fun c hc => (hOK c hc).1) _, hrec]
    | ph k =>
      have hOK : chunkOK k := hts (.ph k) (List.mem_cons_self _ _)
      rw [flattenToks_cons, List.map_cons, flattenToks_cons]
      by_cases hkk : k = key
      · subst hkk
        show pyReplaceChars ('{' :: (k.data ++ ['}'])) _
            (('{' :: (k.data ++ ['}'])) ++ flattenToks ts) = _
        rw [pyReplace_cons_match '{' (k.data ++ ['}']) _ (flattenToks ts), hrec]
        simp [replaceTok, tokChars]
      · have hne : k.data ≠ key.data := by
          intro h
          exact hkk (by
            cases k
            cases key
            simp only at h
            rw [h])
        have hshape : tokChars (TmplTok.ph k) ++ flattenToks ts =
            '{' :: (k.data ++ ('}' :: flattenToks ts)) := by
          simp [tokChars]
        rw [hshape]
        rw [pyReplace_skip_ph key k hkey hOK hne _ (flattenToks ts)]
        rw [hrec]
        simp [replaceTok, hkk, tokChars]
    | dph k =>
      have hOK : chunkOK k := hts (.dph k) (List.mem_cons_self _ _)
      have hkne : k ≠ key := hdph k (List.mem_cons_self _ _)
      have hne : k.data ≠ key.data := by
        intro h
        exact hkne (by
          cases k
          cases key
          simp only at h
          rw [h])
      rw [flattenToks_cons, List.map_cons, flattenToks_cons]
      have hshape : tokChars (TmplTok.dph k) ++ flattenToks ts =
          '$' :: '{' :: (k.data ++ ('}' :: flattenToks ts)) := by
        simp [tokChars]
      rw [hshape]
      rw [pyReplace_skip_dph key k hkey hOK hne _ (flattenToks ts)]
      rw [hrec]
      simp [replaceTok, tokChars]

/-- Unfolding equation of `safeSubChars` at a non-dollar character. -/
theorem safeSub_cons_nodollar (m : String → Option String) (c : Char) (rest : List Char)
    (hc : c ≠ '$') :
    safeSubChars m (c :: rest) = c :: safeSubChars m rest := by
  rw [safeSubChars.eq_def]
  dsimp only
  rw [if_neg hc]

/-- The scan copies a dollar-free chunk verbatim. -/
theorem safeSub_append_nodollar (m : String → Option String) (s : List Char)
    (hs : ∀ c ∈ s, c ≠ '$') (rest : List Char) :
    safeSubChars m (s ++ rest) = s ++ safeSubChars m rest := by
  induction s with
  | nil => rfl
  | cons c s ih =>
    rw [List.cons_append, safeSub_cons_nodollar m c _ (hs c (List.mem_cons_self c s))]
    rw [ih (fun x hx => hs x (List.mem_cons_of_mem c hx))]
    rfl

theorem takeWhile_ident_append (xs : List Char) (hxs : ∀ x ∈ xs, isIdentChar x = true)
    (ys : List Char) :
    (xs ++ '}' :: ys).takeWhile isIdentChar = xs ∧
    (xs ++ '}' :: ys).dropWhile isIdentChar = '}' :: ys := by
  have hbr : isIdentChar '}' = false := by decide
  induction xs with
  | nil =>
    constructor
    · simp [List.takeWhile_cons, hbr]
    · simp [List.dropWhile_cons, hbr]
  | cons x xs ih =>
    have hx : isIdentChar x = true := hxs x (List.mem_cons_self x xs)
    have hih := ih (fun y hy => hxs y (List.mem_cons_of_mem x hy))
    constructor
    · rw [List.cons_append, List.takeWhile_cons, hx]
      simp [hih.1]
    · rw [List.cons_append, List.dropWhile_cons, hx]
      simp [hih.2]

/-- The scan substitutes a well-formed `${k}` placeholder: the mapped value
is inserted verbatim, an unmapped placeholder stays literal. -/
theorem safeSub_dph (m : String → Option String) (k : String) (hident : identOK k = true)
    (rest : List Char) :
    safeSubChars m ('$' :: '{' :: (k.data ++ ('}' :: rest))) =
      (match m k with
       | some v => v.data
       | none => '$' :: '{' :: (k.data ++ ['}'])) ++ safeSubChars m rest := by
  obtain ⟨kd⟩ := k
  have hall : ∀ x ∈ kd, isIdentChar x = true := by
    have h2 := (Bool.and_eq_true _ _ |>.mp hident).2
    intro x hx
    exact List.all_eq_true.mp h2 x hx
  have hsplitw := takeWhile_ident_append kd hall rest
  simp only [safeSubChars]
  rw [if_pos trivial]
  rw [if_neg (by decide)]
  rw [if_pos trivial]
  rw [show List.takeWhile isIdentChar (kd ++ '}' :: rest) = kd from hsplitw.1]
  rw [if_pos ((Bool.and_eq_true _ _ |>.mp hident).1)]
  split
  · rename_i rest4 heq
    rw [hsplitw.2] at heq
    injection heq with heq1 heq2
    subst heq2
    cases hmk : m ⟨kd⟩ with
    | some v => simp [hmk]
    | none => simp [hmk, List.cons_append, List.append_assoc]
  · rename_i hnomatch
    exact absurd (hsplitw.2) (by
      intro h
      exact hnomatch rest h)

instance chunkOK_decidable (s : String) : Decidable (chunkOK s) := by
  unfold chunkOK
  infer_instance

instance tokOK_decidable (t : TmplTok) : Decidable (tokOK t) :=
  match t with
  | .lit s => chunkOK_decidable s
  | .ph k => chunkOK_decidable k
  | .dph k => chunkOK_decidable k

/-- `safe_substitute` distributes over the token structure. -/
theorem safeSub_flatten (m : String → Option String) (ts : List TmplTok)
    (hts : ∀ t ∈ ts, tokOK t) (hdq : ∀ k, TmplTok.dph k ∈ ts → identOK k = true) :
    safeSubChars m (flattenToks ts) = (ts.map (subTokChars m)).flatten := by
  induction ts with
  | nil => simp [flattenToks, safeSubChars]
  | cons t ts ih =>
    have hts2 : ∀ x ∈ ts, tokOK x := fun x hx => hts x (List.mem_cons_of_mem t hx)
    have hdq2 : ∀ k, TmplTok.dph k ∈ ts → identOK k = true :=
      fun k hk => hdq k (List.mem_cons_of_mem t hk)
    have hrec := ih hts2 hdq2
    rw [flattenToks_cons, List.map_cons, List.flatten_cons]
    cases t with
    | lit s =>
      have hOK : chunkOK s := hts (.lit s) (List.mem_cons_self _ _)
      rw [show tokChars (TmplTok.lit s) = s.data from rfl]
      rw [safeSub_append_nodollar m s.data (fun c hc => (hOK c hc).2.2) _, hrec]
      rfl
    | ph k =>
      have hOK : chunkOK k := hts (.ph k) (List.mem_cons_self _ _)
      rw [show tokChars (TmplTok.ph k) = '{' :: (k.data ++ ['}']) from rfl]
      rw [show ('{' :: (k.data ++ ['}'])) ++ flattenToks ts =
        ('{' :: (k.data ++ ['}'])) ++ flattenToks ts from rfl]
      rw [safeSub_append_nodollar m ('{' :: (k.data ++ ['}']))
        (by
          intro c hc
          rcases List.mem_cons.mp hc with rfl | hc2
          · decide
          · rcases List.mem_append.mp hc2 with h3 | h3
            · exact (hOK c h3).2.2
            · rw [List.mem_singleton.mp h3]
              decide) _]
      rw [hrec]
      rfl
    | dph k =>
      have hident : identOK k = true := hdq k (List.mem_cons_self _ _)
      have hshape : tokChars (TmplTok.dph k) ++ flattenToks ts =
          '$' :: '{' :: (k.data ++ ('}' :: flattenToks ts)) := by
        simp [tokChars]
      rw [hshape, safeSub_dph m k hident (flattenToks ts), hrec]
      rfl

/-- `replaceTok` preserves token hygiene. -/
theorem tokOK_map_replace (key : String) (ts : List TmplTok) (h : ∀ t ∈ ts, tokOK t) :
    ∀ t ∈ ts.map (replaceTok key), tokOK t := by
  intro t ht
  obtain ⟨t0, ht0, rfl⟩ := List.mem_map.mp ht
  have h0 := h t0 ht0
  cases t0 with
  | lit s => exact h0
  | ph k =>
    by_cases hk : k = key
    · simpa [replaceTok, hk, tokOK] using h0
    · simpa [replaceTok, hk, tokOK] using h0
  | dph k => exact h0

/-- A `${k}` token after one pass comes from that pass's key or was already
present. -/
theorem dph_mem_map_replace (key k : String) (ts : List TmplTok)
    (h : TmplTok.dph k ∈ ts.map (replaceTok key)) :
    k = key ∨ TmplTok.dph k ∈ ts := by
  obtain ⟨t0, ht0, heq⟩ := List.mem_map.mp h
  cases t0 with
  | lit s => simp [replaceTok] at heq
  | ph k2 =>
    by_cases h2 : k2 = key
    · left
      rw [h2] at heq
      simp [replaceTok] at heq
      exact heq.symm
    · simp [replaceTok, h2] at heq
  | dph k2 =>
    right
    simp [replaceTok] at heq
    rw [← heq]
    exact ht0

/-- C9: `render_template` on any placeholder-structured template (literal
chunks free of braces and dollars, interleaved with `{k}` placeholders)
substitutes exactly the four known placeholders — with `"there"` / `""`
defaults for missing contact fields — and reproduces every other
brace-delimited placeholder literally, never evaluating it.  Totality of
`render_template` (the "never raises" clause) is by construction: the only
`raise` in `safe_substitute` is unreachable under the default pattern. -/
theorem render_template_tokens (ts : List TmplTok)
    (hts : ∀ t ∈ ts, tokOK t) (hsrc : ∀ k, ¬ TmplTok.dph k ∈ ts)
    (fn ln : Option String) (bn pn : String) :
    render_template ⟨flattenToks ts⟩ fn ln bn pn =
      ⟨(ts.map (renderTokChars fn ln bn pn)).flatten⟩ := by
  have hstep : render_template ⟨flattenToks ts⟩ fn ln bn pn =
      ⟨safeSubChars
        (fun k => ((templateVars fn ln bn pn).find? (fun kv => kv.1 == k)).map (·.2))
        (pyReplaceChars ('{' :: (("phone_number" : String).data ++ ['}']))
          ('$' :: '{' :: (("phone_number" : String).data ++ ['}']))
          (pyReplaceChars ('{' :: (("business_name" : String).data ++ ['}']))
            ('$' :: '{' :: (("business_name" : String).data ++ ['}']))
            (pyReplaceChars ('{' :: (("last_name" : String).data ++ ['}']))
              ('$' :: '{' :: (("last_name" : String).data ++ ['}']))
              (pyReplaceChars ('{' :: (("first_name" : String).data ++ ['}']))
                ('$' :: '{' :: (("first_name" : String).data ++ ['}']))
                (flattenToks ts)))))⟩ := rfl
  rw [hstep]
  have hts1 := tokOK_map_replace "first_name" ts hts
  have hts2 := tokOK_map_replace "last_name" _ hts1
  have hts3 := tokOK_map_replace "business_name" _ hts2
  have hts4 := tokOK_map_replace "phone_number" _ hts3
  have hd1 : ∀ k, TmplTok.dph k ∈ ts.map (replaceTok "first_name") → k = "first_name" := by
    intro k hk
    rcases dph_mem_map_replace _ _ _ hk with h | h
    · exact h
    · exact absurd h (hsrc k)
  have hd2 : ∀ k, TmplTok.dph k ∈ (ts.map (replaceTok "first_name")).map (replaceTok "last_name") →
      k = "first_name" ∨ k = "last_name" := by
    intro k hk
    rcases dph_mem_map_replace _ _ _ hk with h | h
    · exact Or.inr h
    · exact Or.inl (hd1 k h)
  have hd3 : ∀ k, TmplTok.dph k ∈
      ((ts.map (replaceTok "first_name")).map (replaceTok "last_name")).map
        (replaceTok "business_name") →
      k = "first_name" ∨ k = "last_name" ∨ k = "business_name" := by
    intro k hk
    rcases dph_mem_map_replace _ _ _ hk with h | h
    · exact Or.inr (Or.inr h)
    · rcases hd2 k h with h2 | h2
      · exact Or.inl h2
      · exact Or.inr (Or.inl h2)
  have hd4 : ∀ k, TmplTok.dph k ∈
      (((ts.map (replaceTok "first_name")).map (replaceTok "last_name")).map
        (replaceTok "business_name")).map (replaceTok "phone_number") →
      k = "first_name" ∨ k = "last_name" ∨ k = "business_name" ∨ k = "phone_number" := by
    intro k hk
    rcases dph_mem_map_replace _ _ _ hk with h | h
    · exact Or.inr (Or.inr (Or.inr h))
    · rcases hd3 k h with h2 | h2 | h2
      · exact Or.inl h2
      · exact Or.inr (Or.inl h2)
      · exact Or.inr (Or.inr (Or.inl h2))
  rw [pyReplace_flatten "first_name" (by decide) ts hts
    (fun k hk => absurd hk (hsrc k))]
  rw [pyReplace_flatten "last_name" (by decide) _ hts1
    (fun k hk => by rw [hd1 k hk]; decide)]
  rw [pyReplace_flatten "business_name" (by decide) _ hts2
    (fun k hk => by rcases hd2 k hk with h | h <;> rw [h] <;> decide)]
  rw [pyReplace_flatten "phone_number" (by decide) _ hts3
    (fun k hk => by rcases hd3 k hk with h | h | h <;> rw [h] <;> decide)]
  rw [safeSub_flatten _ _ hts4
    (fun k hk => by rcases hd4 k hk with h | h | h | h <;> rw [h] <;> decide)]
  congr 1
  rw [List.map_map, List.map_map, List.map_map, List.map_map]
  congr 1
  apply List.map_congr_left
  intro t ht
  have htok := hts t ht
  have hnd : ∀ k, t ≠ TmplTok.dph k := fun k h => hsrc k (h ▸ ht)
  simp only [Function.comp]
  cases t with
  | lit s => rfl
  | ph k =>
    by_cases h1 : k = "first_name"
    · subst h1; rfl
    · by_cases h2 : k = "last_name"
      · subst h2; rfl
      · by_cases h3 : k = "business_name"
        · subst h3; rfl
        · by_cases h4 : k = "phone_number"
          · subst h4; rfl
          · simp [replaceTok, subTokChars, renderTokChars, h1, h2, h3, h4]
  | dph k => exact absurd rfl (hnd k)

theorem render_template_tokens_witness :
    render_template
      "Hi \x7bfirst_name\x7d, \x7bfirst_name.__class__\x7d from \x7bbusiness_name\x7d"
      none (some "Smith") "Acme" "+15550000000" =
      "Hi there, \x7bfirst_name.__class__\x7d from Acme" := by
  have h := render_template_tokens
    [TmplTok.lit "Hi ", TmplTok.ph "first_name", TmplTok.lit ", ",
     TmplTok.ph "first_name.__class__", TmplTok.lit " from ",
     TmplTok.ph "business_name"]
    (by decide)
    (by intro k hk; simp at hk)
    none (some "Smith") "Acme" "+15550000000"
  exact h

end SMSChatbot